import Mathlib

/-!
Verification of the combat-and-scheduling core of a canvas tower-defense game
against its natural-language specification.

The JavaScript source is shallowly embedded: every class becomes a structure,
every method a function from the structure (plus explicit `now`/`deltaTime`
arguments standing for the wall clock that the source reads via `Date.now()`),
and mutation becomes functional record update.  JavaScript numbers are
embedded as `ℚ` where the source only does field arithmetic and comparisons
(health, damage, times) and as `ℝ` where square roots enter (geometry).
Object references (tower → target, projectile → target) are embedded as
indices into the live enemy list.  Math.random-driven parts take the random
choices as an explicit argument.
-/

set_option maxHeartbeats 1000000

namespace TD

/-! ### Utility functions (utils: distance, clamp, lerp, angleBetween) -/

/-- Euclidean distance between two points, `distance` from the utils file:
`sqrt(dx*dx + dy*dy)`. -/
noncomputable def distance (x1 y1 x2 y2 : ℝ) : ℝ :=
  Real.sqrt ((x2 - x1) * (x2 - x1) + (y2 - y1) * (y2 - y1))

/-- Clamp a value between a minimum and a maximum, `clamp` from the utils
file: `Math.min(Math.max(value, min), max)`. -/
noncomputable def clamp (value lo hi : ℝ) : ℝ :=
  min (max value lo) hi

/-- Linear interpolation, `lerp` from the utils file. -/
def lerp (a b t : ℝ) : ℝ :=
  a + (b - a) * t

/-- Angle from point 1 to point 2, `angleBetween` from the utils file:
`Math.atan2(y2 - y1, x2 - x1)`.  JavaScript's `atan2(y, x)` is the argument
of the complex number `x + y*I`, valued in `(-π, π]`, with `atan2 0 0 = 0`
agreeing with `Complex.arg 0 = 0`. -/
noncomputable def angleBetween (x1 y1 x2 y2 : ℝ) : ℝ :=
  Complex.arg ⟨x2 - x1, y2 - y1⟩

theorem distance_eval (x1 y1 x2 y2 d : ℝ)
    (h : (x2 - x1) * (x2 - x1) + (y2 - y1) * (y2 - y1) = d ^ 2) (hd : 0 ≤ d) :
    distance x1 y1 x2 y2 = d := by
  rw [distance, h, Real.sqrt_sq hd]

theorem distance_nonneg (x1 y1 x2 y2 : ℝ) : 0 ≤ distance x1 y1 x2 y2 :=
  Real.sqrt_nonneg _

/-! ### Path data (pathData: PATH_COORDINATES, calculatePathLength,
getPositionOnPath) -/

/-- The fixed polyline the enemies walk, `PATH_COORDINATES` from pathData. -/
def PATH_COORDINATES : List (ℝ × ℝ) :=
  [(-20, 300), (100, 300), (200, 300), (200, 200), (200, 150), (400, 150),
   (500, 150), (500, 250), (500, 350), (650, 350), (700, 350), (700, 250),
   (700, 200), (820, 200)]

/-- Sum of the segment lengths of a polyline (the loop body of
`calculatePathLength`). -/
noncomputable def pathLengthAux : List (ℝ × ℝ) → ℝ
  | p :: q :: rest => distance p.1 p.2 q.1 q.2 + pathLengthAux (q :: rest)
  | _ => 0

/-- Total length of the path, `calculatePathLength` from pathData. -/
noncomputable def calculatePathLength : ℝ :=
  pathLengthAux PATH_COORDINATES

/-- The path coordinates are axis-aligned, so the total length evaluates to
the exact constant 1340. -/
theorem calculatePathLength_eq : calculatePathLength = 1340 := by
  rw [calculatePathLength, PATH_COORDINATES]
  simp only [pathLengthAux]
  rw [distance_eval (-20) 300 100 300 120 (by norm_num) (by norm_num),
      distance_eval 100 300 200 300 100 (by norm_num) (by norm_num),
      distance_eval 200 300 200 200 100 (by norm_num) (by norm_num),
      distance_eval 200 200 200 150 50 (by norm_num) (by norm_num),
      distance_eval 200 150 400 150 200 (by norm_num) (by norm_num),
      distance_eval 400 150 500 150 100 (by norm_num) (by norm_num),
      distance_eval 500 150 500 250 100 (by norm_num) (by norm_num),
      distance_eval 500 250 500 350 100 (by norm_num) (by norm_num),
      distance_eval 500 350 650 350 150 (by norm_num) (by norm_num),
      distance_eval 650 350 700 350 50 (by norm_num) (by norm_num),
      distance_eval 700 350 700 250 100 (by norm_num) (by norm_num),
      distance_eval 700 250 700 200 50 (by norm_num) (by norm_num),
      distance_eval 700 200 820 200 120 (by norm_num) (by norm_num)]
  norm_num

theorem calculatePathLength_pos : 0 < calculatePathLength := by
  rw [calculatePathLength_eq]; norm_num

/-- A position/orientation sample on the path, the record returned by
`getPositionOnPath`. -/
structure PathPoint where
  x : ℝ
  y : ℝ
  angle : ℝ

/-- The segment-walking loop of `getPositionOnPath`: find the segment
containing `targetDistance` and interpolate inside it. -/
noncomputable def positionOnSegments (targetDistance : ℝ) :
    ℝ → List (ℝ × ℝ) → Option PathPoint
  | currentDistance, p :: q :: rest =>
    let segmentLength := distance p.1 p.2 q.1 q.2
    if currentDistance + segmentLength ≥ targetDistance then
      let segmentProgress := (targetDistance - currentDistance) / segmentLength
      some ⟨lerp p.1 q.1 segmentProgress, lerp p.2 q.2 segmentProgress,
            angleBetween p.1 p.2 q.1 q.2⟩
    else
      positionOnSegments targetDistance (currentDistance + segmentLength) (q :: rest)
  | _, _ => none

/-- Position on the path at a progress fraction, `getPositionOnPath` from
pathData. -/
noncomputable def getPositionOnPath (progress : ℝ) : PathPoint :=
  let progress := clamp progress 0 1
  let first := PATH_COORDINATES.getD 0 (0, 0)
  let second := PATH_COORDINATES.getD 1 (0, 0)
  let last := PATH_COORDINATES.getD (PATH_COORDINATES.length - 1) (0, 0)
  let penult := PATH_COORDINATES.getD (PATH_COORDINATES.length - 2) (0, 0)
  if progress = 0 then
    ⟨first.1, first.2, angleBetween first.1 first.2 second.1 second.2⟩
  else if progress = 1 then
    ⟨last.1, last.2, angleBetween penult.1 penult.2 last.1 last.2⟩
  else
    let targetDistance := progress * calculatePathLength
    match positionOnSegments targetDistance 0 PATH_COORDINATES with
    | some pp => pp
    | none => ⟨last.1, last.2, angleBetween penult.1 penult.2 last.1 last.2⟩

/-! ### Mobile units (class Enemy) -/

/-- The enemy kinds of `ENEMY_TYPES`. -/
inductive EnemyType where
  | BASIC
  | TANK
  | FAST
deriving DecidableEq

/-- Per-kind stats, one entry of `ENEMY_TYPES` (visual color omitted). -/
structure EnemyConfig where
  health : ℚ
  maxHealth : ℚ
  speed : ℚ
  reward : ℚ
  size : ℝ
  pathSpeed : ℚ

/-- The `ENEMY_TYPES` table from the constants file. -/
def ENEMY_TYPES : EnemyType → EnemyConfig
  | .BASIC => { health := 100, maxHealth := 100, speed := 60, reward := 10,
                size := 20, pathSpeed := 1 }
  | .TANK  => { health := 300, maxHealth := 300, speed := 30, reward := 25,
                size := 25, pathSpeed := 4/5 }
  | .FAST  => { health := 60, maxHealth := 60, speed := 120, reward := 15,
                size := 18, pathSpeed := 3/2 }

/-- State of one enemy, the fields of `class Enemy` (visual color and the
random debugging id are omitted; identity is modeled by position in the
live list). -/
structure Enemy where
  type : EnemyType
  health : ℚ
  maxHealth : ℚ
  speed : ℚ
  pathSpeed : ℚ
  reward : ℚ
  size : ℝ
  posX : ℝ
  posY : ℝ
  pathProgress : ℝ
  dirX : ℝ
  dirY : ℝ
  angle : ℝ
  alive : Bool
  reachedEnd : Bool
  markedForRemoval : Bool
  damageFlash : ℚ

/-- `Enemy.updatePositionFromPath`: resolve position, angle and direction
vector from the current path progress. -/
noncomputable def Enemy.updatePositionFromPath (e : Enemy) : Enemy :=
  let pd := getPositionOnPath e.pathProgress
  { e with posX := pd.x, posY := pd.y, angle := pd.angle,
           dirX := Real.cos pd.angle, dirY := Real.sin pd.angle }

/-- The `Enemy` constructor for a valid type (the constructor throws only for
kinds outside `ENEMY_TYPES`, which the embedded enum rules out). -/
noncomputable def Enemy.init (type : EnemyType) : Enemy :=
  let config := ENEMY_TYPES type
  Enemy.updatePositionFromPath
    { type := type, health := config.health, maxHealth := config.maxHealth,
      speed := config.speed, pathSpeed := config.pathSpeed,
      reward := config.reward, size := config.size,
      posX := 0, posY := 0, pathProgress := 0,
      dirX := 1, dirY := 0, angle := 0,
      alive := true, reachedEnd := false, markedForRemoval := false,
      damageFlash := 0 }

/-- `Enemy.move(deltaTime)`: advance progress along the path by
`speed * pathSpeed * deltaTime / 1000` over the total path length, clamped
to `[0, 1]`; no-op when dead or already at the end. -/
noncomputable def Enemy.move (e : Enemy) (deltaTime : ℚ) : Enemy :=
  if !e.alive || e.reachedEnd then e
  else
    let moveDistance : ℚ := (e.speed * e.pathSpeed * deltaTime) / 1000
    let totalPathLength := calculatePathLength
    let progressIncrement := (moveDistance : ℝ) / totalPathLength
    let e' := { e with pathProgress := clamp (e.pathProgress + progressIncrement) 0 1 }
    e'.updatePositionFromPath

/-- `Enemy.checkEndReached`: progress at or past 1 marks the unit as having
reached the end and no longer alive. -/
noncomputable def Enemy.checkEndReached (e : Enemy) : Enemy :=
  if e.pathProgress ≥ 1 then { e with reachedEnd := true, alive := false }
  else e

/-- `Enemy.takeDamage(damage)`: returns whether this call killed the enemy,
paired with the updated enemy.  No-op returning false when not alive. -/
def Enemy.takeDamage (e : Enemy) (damage : ℚ) : Bool × Enemy :=
  if !e.alive then (false, e)
  else
    let e' := { e with health := e.health - damage, damageFlash := 200 }
    if e'.health ≤ 0 then (true, { e' with health := 0, alive := false })
    else (false, e')

/-- `Enemy.updateVisualEffects(deltaTime)`: run down the damage-flash timer,
floored at 0. -/
def Enemy.updateVisualEffects (e : Enemy) (deltaTime : ℚ) : Enemy :=
  if e.damageFlash > 0 then
    let e' := { e with damageFlash := e.damageFlash - deltaTime }
    if e'.damageFlash < 0 then { e' with damageFlash := 0 } else e'
  else e

/-- `Enemy.update(deltaTime)`: early-out when dead or at the end, otherwise
visual effects, movement, then the end-of-path check. -/
noncomputable def Enemy.update (e : Enemy) (deltaTime : ℚ) : Enemy :=
  if !e.alive || e.reachedEnd then e
  else (((e.updateVisualEffects deltaTime).move deltaTime).checkEndReached)

/-- `Enemy.getDistanceToEnd`: remaining route distance
`totalLength * (1 - pathProgress)`. -/
noncomputable def Enemy.getDistanceToEnd (e : Enemy) : ℝ :=
  calculatePathLength * (1 - e.pathProgress)

/-- `Enemy.isAlive`. -/
def Enemy.isAlive (e : Enemy) : Bool := e.alive

/-- `Enemy.getBounds` radius component: collision radius is `size / 2`. -/
noncomputable def Enemy.boundsRadius (e : Enemy) : ℝ := e.size / 2

/-- Iterated damage application: final state and how many of the calls
reported having caused the death. -/
def Enemy.damageSeq (e : Enemy) : List ℚ → Enemy × ℕ
  | [] => (e, 0)
  | d :: ds =>
    let r := e.takeDamage d
    let rest := r.2.damageSeq ds
    (rest.1, (if r.1 then 1 else 0) + rest.2)

/-- A concrete enemy literal used by the concrete-instance theorems (the
claims quantify over arbitrary enemy states, so instances are built
directly, the way the repository's own tests set `enemy.position.x`). -/
def mkEnemy (health : ℚ) (px py progress : ℝ) (al : Bool) : Enemy :=
  { type := .BASIC, health := health, maxHealth := 100, speed := 60,
    pathSpeed := 1, reward := 10, size := 20, posX := px, posY := py,
    pathProgress := progress, dirX := 1, dirY := 0, angle := 0, alive := al,
    reachedEnd := false, markedForRemoval := false, damageFlash := 0 }

/-! ### Facts about damage application -/

theorem takeDamage_dead {e : Enemy} (h : e.alive = false) (d : ℚ) :
    e.takeDamage d = (false, e) := by
  simp [Enemy.takeDamage, h]

theorem takeDamage_killed_dead {e : Enemy} {d : ℚ}
    (h : (e.takeDamage d).1 = true) : (e.takeDamage d).2.alive = false := by
  unfold Enemy.takeDamage at h ⊢
  by_cases ha : e.alive = true <;> by_cases hd : e.health - d ≤ 0 <;> simp_all

theorem takeDamage_not_killed_alive {e : Enemy} {d : ℚ} (ha : e.alive = true)
    (h : (e.takeDamage d).1 = false) : (e.takeDamage d).2.alive = true := by
  unfold Enemy.takeDamage at h ⊢
  by_cases h2 : e.health ≤ d
  · simp [ha, sub_nonpos, h2] at h
  · simp [ha, sub_nonpos, h2]

theorem damageSeq_dead {e : Enemy} (h : e.alive = false) (ds : List ℚ) :
    e.damageSeq ds = (e, 0) := by
  induction ds with
  | nil => rfl
  | cons d ds ih => simp [Enemy.damageSeq, takeDamage_dead h, ih]

theorem damageSeq_alive {e : Enemy} (ha : e.alive = true) (ds : List ℚ) :
    (e.damageSeq ds).2 ≤ 1 ∧
      ((e.damageSeq ds).1.alive = false ↔ (e.damageSeq ds).2 = 1) := by
  induction ds generalizing e with
  | nil => simp [Enemy.damageSeq, ha]
  | cons d ds ih =>
    by_cases hk : (e.takeDamage d).1 = true
    · have hdead := takeDamage_killed_dead hk
      simp [Enemy.damageSeq, hk, damageSeq_dead hdead, hdead]
    · have hk' : (e.takeDamage d).1 = false := by simpa using hk
      have halive := takeDamage_not_killed_alive ha hk'
      have := ih halive
      simp [Enemy.damageSeq, hk', this]

/-- C3.  `applyDamage`/`takeDamage` is a no-op returning false on a dead
unit; on a live unit it subtracts the amount, clamps health at 0 (so health
never goes below 0), sets `alive := false` exactly when the clamped result
reached 0, returns true precisely when this call caused the death, and over
any sequence of calls a unit that starts alive dies at most once (the
returned "killed" flag is true at most once, and exactly once iff the unit
ends up dead). -/
theorem applyDamage_noop_clamp_kill_once (e : Enemy) (d : ℚ) (ds : List ℚ) :
    (e.alive = false → e.takeDamage d = (false, e))
  ∧ (e.alive = true → (e.takeDamage d).2.health = max 0 (e.health - d))
  ∧ (e.alive = true → ((e.takeDamage d).2.alive = false ↔ e.health - d ≤ 0))
  ∧ (e.alive = true → ((e.takeDamage d).1 = true ↔ e.health - d ≤ 0))
  ∧ (0 ≤ e.health → 0 ≤ (e.takeDamage d).2.health)
  ∧ (e.alive = true → (e.damageSeq ds).2 ≤ 1 ∧
      ((e.damageSeq ds).1.alive = false ↔ (e.damageSeq ds).2 = 1)) := by
  refine ⟨fun h => takeDamage_dead h d, fun ha => ?_, fun ha => ?_,
          fun ha => ?_, fun hh => ?_, fun ha => damageSeq_alive ha ds⟩
  · unfold Enemy.takeDamage
    by_cases h2 : e.health ≤ d
    · simp [ha, sub_nonpos, h2]
    · simp [ha, sub_nonpos, h2]
      exact le_of_lt (lt_of_not_le h2)
  · unfold Enemy.takeDamage
    by_cases h2 : e.health ≤ d <;> simp [ha, sub_nonpos, h2]
  · unfold Enemy.takeDamage
    by_cases h2 : e.health ≤ d <;> simp [ha, sub_nonpos, h2]
  · unfold Enemy.takeDamage
    by_cases ha : e.alive = true
    · by_cases h2 : e.health ≤ d
      · simp [ha, sub_nonpos, h2]
      · simp [ha, sub_nonpos, h2]
        linarith [le_of_lt (lt_of_not_le h2)]
    · have ha' : e.alive = false := by simpa using ha
      simpa [ha'] using hh

/-- Concrete instance for C3: a 100-health live unit hit for 150 dies by
that call, ends with health 0 (not negative), and over the sequence
`[150, 50]` the kill is reported exactly once. -/
theorem applyDamage_noop_clamp_kill_once_witness :
    ((mkEnemy 100 0 0 0 true).takeDamage 150).1 = true
  ∧ ((mkEnemy 100 0 0 0 true).takeDamage 150).2.health = 0
  ∧ ((mkEnemy 100 0 0 0 true).damageSeq [150, 50]).2 = 1 := by
  have h := applyDamage_noop_clamp_kill_once (mkEnemy 100 0 0 0 true) 150 [150, 50]
  refine ⟨(h.2.2.2.1 rfl).mpr (by norm_num [mkEnemy]), ?_, ?_⟩
  · rw [h.2.1 rfl]; norm_num [mkEnemy]
  · refine (h.2.2.2.2.2 rfl).2.mp ?_
    have hk : ((mkEnemy 100 0 0 0 true).takeDamage 150).1 = true :=
      (h.2.2.2.1 rfl).mpr (by norm_num [mkEnemy])
    have hdead := takeDamage_killed_dead hk
    simp [Enemy.damageSeq, damageSeq_dead hdead, takeDamage_dead hdead, hdead]

/-! ### Facts about per-tick advancement (C6) -/

theorem updatePositionFromPath_fields (e : Enemy) :
    e.updatePositionFromPath.pathProgress = e.pathProgress ∧
    e.updatePositionFromPath.alive = e.alive ∧
    e.updatePositionFromPath.reachedEnd = e.reachedEnd ∧
    e.updatePositionFromPath.speed = e.speed ∧
    e.updatePositionFromPath.pathSpeed = e.pathSpeed :=
  ⟨rfl, rfl, rfl, rfl, rfl⟩

theorem updateVisualEffects_fields (e : Enemy) (dt : ℚ) :
    (e.updateVisualEffects dt).pathProgress = e.pathProgress ∧
    (e.updateVisualEffects dt).alive = e.alive ∧
    (e.updateVisualEffects dt).reachedEnd = e.reachedEnd ∧
    (e.updateVisualEffects dt).speed = e.speed ∧
    (e.updateVisualEffects dt).pathSpeed = e.pathSpeed := by
  unfold Enemy.updateVisualEffects
  by_cases h1 : e.damageFlash > 0
  · by_cases h2 : e.damageFlash < dt <;> simp [h1, h2, sub_neg]
  · simp [h1]

theorem checkEndReached_fields (e : Enemy) :
    e.checkEndReached.pathProgress = e.pathProgress ∧
    e.checkEndReached.speed = e.speed ∧
    e.checkEndReached.pathSpeed = e.pathSpeed := by
  unfold Enemy.checkEndReached
  split_ifs <;> simp

theorem move_noop {e : Enemy} (h : (!e.alive || e.reachedEnd) = true) (dt : ℚ) :
    e.move dt = e := by
  unfold Enemy.move
  rw [if_pos h]

theorem move_pathProgress {e : Enemy} (ha : e.alive = true)
    (hr : e.reachedEnd = false) (dt : ℚ) :
    (e.move dt).pathProgress =
      clamp (e.pathProgress +
        ((e.speed * e.pathSpeed * dt / 1000 : ℚ) : ℝ) / calculatePathLength) 0 1 := by
  unfold Enemy.move
  rw [if_neg (by simp [ha, hr])]
  exact (updatePositionFromPath_fields _).1

theorem move_fields (e : Enemy) (dt : ℚ) :
    (e.move dt).speed = e.speed ∧ (e.move dt).pathSpeed = e.pathSpeed := by
  unfold Enemy.move
  split_ifs with h
  · exact ⟨rfl, rfl⟩
  · exact ⟨(updatePositionFromPath_fields _).2.2.2.1,
      (updatePositionFromPath_fields _).2.2.2.2⟩

theorem update_noop {e : Enemy} (h : e.alive = false ∨ e.reachedEnd = true)
    (dt : ℚ) : e.update dt = e := by
  unfold Enemy.update
  rcases h with h | h <;> simp [h]

theorem update_speed (e : Enemy) (dt : ℚ) :
    (e.update dt).speed = e.speed ∧ (e.update dt).pathSpeed = e.pathSpeed := by
  unfold Enemy.update
  split_ifs with h
  · exact ⟨rfl, rfl⟩
  · constructor
    · rw [(checkEndReached_fields _).2.1, (move_fields _ _).1,
        (updateVisualEffects_fields _ _).2.2.2.1]
    · rw [(checkEndReached_fields _).2.2, (move_fields _ _).2,
        (updateVisualEffects_fields _ _).2.2.2.2]

theorem update_progress {e : Enemy} (ha : e.alive = true)
    (hr : e.reachedEnd = false) (dt : ℚ) :
    (e.update dt).pathProgress =
      clamp (e.pathProgress +
        ((e.speed * e.pathSpeed * dt / 1000 : ℚ) : ℝ) / calculatePathLength) 0 1 := by
  unfold Enemy.update
  rw [if_neg (by simp [ha, hr])]
  have hve := updateVisualEffects_fields e dt
  rw [(checkEndReached_fields _).1,
    move_pathProgress (by rw [hve.2.1, ha]) (by rw [hve.2.2.1, hr]) dt,
    hve.1, hve.2.2.2.1, hve.2.2.2.2]

theorem update_progress_step (e : Enemy) (d : ℚ) (hs : 0 ≤ e.speed)
    (hp : 0 ≤ e.pathSpeed) (hd : 0 ≤ d) (h0 : 0 ≤ e.pathProgress)
    (h1 : e.pathProgress ≤ 1) :
    e.pathProgress ≤ (e.update d).pathProgress ∧
      0 ≤ (e.update d).pathProgress ∧ (e.update d).pathProgress ≤ 1 := by
  by_cases ha : e.alive = true
  · by_cases hr : e.reachedEnd = true
    · rw [update_noop (Or.inr hr) d]
      exact ⟨le_refl _, h0, h1⟩
    · have hr' : e.reachedEnd = false := by simpa using hr
      have hinc : (0 : ℝ) ≤
          ((e.speed * e.pathSpeed * d / 1000 : ℚ) : ℝ) / calculatePathLength := by
        apply div_nonneg _ calculatePathLength_pos.le
        rw [Rat.cast_nonneg]
        positivity
      rw [update_progress ha hr' d]
      unfold clamp
      exact ⟨le_min (le_trans (by linarith) (le_max_left _ _)) h1,
        le_min (le_max_right _ _) zero_le_one, min_le_right _ _⟩
  · rw [update_noop (Or.inl (by simpa using ha)) d]
    exact ⟨le_refl _, h0, h1⟩

/-- C6.  Over any sequence of ticks with non-negative elapsed times (and the
non-negative speed stats every constructed unit has), a unit's path progress
is monotonically non-decreasing and stays within `[0, 1]`; a tick is a
complete no-op on a unit that is dead or has already reached the end. -/
theorem progress_monotone_bounded (e : Enemy) (ds : List ℚ) (hs : 0 ≤ e.speed)
    (hp : 0 ≤ e.pathSpeed) (hd : ∀ d ∈ ds, 0 ≤ d) (h0 : 0 ≤ e.pathProgress)
    (h1 : e.pathProgress ≤ 1) :
    (e.pathProgress ≤ (List.foldl Enemy.update e ds).pathProgress
      ∧ 0 ≤ (List.foldl Enemy.update e ds).pathProgress
      ∧ (List.foldl Enemy.update e ds).pathProgress ≤ 1)
  ∧ (∀ dt : ℚ, e.alive = false ∨ e.reachedEnd = true → e.update dt = e) := by
  refine ⟨?_, fun dt h => update_noop h dt⟩
  induction ds generalizing e with
  | nil => exact ⟨le_refl _, h0, h1⟩
  | cons d ds ih =>
    have hstep := update_progress_step e d hs hp (hd d (by simp)) h0 h1
    have hsp := update_speed e d
    have := ih (e.update d) (hsp.1 ▸ hs) (hsp.2 ▸ hp)
      (fun x hx => hd x (by simp [hx])) hstep.2.1 hstep.2.2
    exact ⟨le_trans hstep.1 this.1, this.2.1, this.2.2⟩

/-- Concrete instance for C6: a fresh-style unit ticked for 1000 ms and then
500 ms keeps its progress non-decreasing and inside `[0, 1]`. -/
theorem progress_monotone_bounded_witness :
    (mkEnemy 100 0 0 0 true).pathProgress ≤
      (List.foldl Enemy.update (mkEnemy 100 0 0 0 true) [1000, 500]).pathProgress
  ∧ 0 ≤ (List.foldl Enemy.update (mkEnemy 100 0 0 0 true) [1000, 500]).pathProgress
  ∧ (List.foldl Enemy.update (mkEnemy 100 0 0 0 true) [1000, 500]).pathProgress ≤ 1 :=
  (progress_monotone_bounded (mkEnemy 100 0 0 0 true) [1000, 500]
    (by norm_num [mkEnemy]) (by norm_num [mkEnemy])
    (by intro d hd; simp at hd; rcases hd with h | h <;> simp [h])
    (by norm_num [mkEnemy]) (by norm_num [mkEnemy])).1


/-! ### Emplacements (class Tower) -/

/-- Canvas dimensions and grid size from `GAME_CONFIG`. -/
def CANVAS_WIDTH : ℝ := 800

def CANVAS_HEIGHT : ℝ := 600

def GRID_SIZE : ℝ := 64

/-- `isWithinBounds` from the utils file. -/
def isWithinBounds (x y : ℝ) : Prop :=
  0 ≤ x ∧ x < CANVAS_WIDTH ∧ 0 ≤ y ∧ y < CANVAS_HEIGHT

noncomputable instance (x y : ℝ) : Decidable (isWithinBounds x y) := by
  unfold isWithinBounds
  infer_instance

/-- The tower kinds of `TOWER_TYPES`. -/
inductive TowerType where
  | BASIC
  | SNIPER
  | AREA
deriving DecidableEq

/-- Per-kind tower stats, one entry of `TOWER_TYPES` (visual fields
omitted). -/
structure TowerConfig where
  damage : ℚ
  range : ℝ
  fireRate : ℚ
  cost : ℚ
  size : ℝ
  projectileSpeed : ℝ
  splash : Bool
  splashRadius : ℝ

/-- The `TOWER_TYPES` table from the constants file. -/
def TOWER_TYPES : TowerType → TowerConfig
  | .BASIC  => { damage := 25, range := 100, fireRate := 2, cost := 100,
                 size := 40, projectileSpeed := 200, splash := false,
                 splashRadius := 0 }
  | .SNIPER => { damage := 80, range := 180, fireRate := 4/5, cost := 250,
                 size := 40, projectileSpeed := 400, splash := false,
                 splashRadius := 0 }
  | .AREA   => { damage := 40, range := 80, fireRate := 6/5, cost := 175,
                 size := 40, projectileSpeed := 150, splash := true,
                 splashRadius := 50 }

/-- The four valid targeting-mode strings accepted by
`setTargetingMode`. -/
inductive TargetingMode where
  | closest_to_end
  | closest_to_tower
  | strongest
  | weakest
deriving DecidableEq

/-- Per-tower statistics (`this.stats` of the Tower constructor). -/
structure TowerStats where
  enemiesKilled : ℕ
  totalDamageDealt : ℚ
  shotsFired : ℕ
  shotsHit : ℕ
  timeActive : ℚ

/-- State of one tower, the fields of `class Tower`.  `target` is the
JavaScript object reference embedded as an index into the live enemy list;
`canShoot` is the boolean OWN property that the constructor assigns with
`this.canShoot = true`, which shadows the prototype method of the same
name. -/
structure Tower where
  type : TowerType
  damage : ℚ
  range : ℝ
  fireRate : ℚ
  cost : ℚ
  projectileSpeed : ℝ
  splash : Bool
  splashRadius : ℝ
  size : ℝ
  posX : ℝ
  posY : ℝ
  target : Option ℕ
  targetingMode : TargetingMode
  lastShotTime : ℚ
  shotCooldown : ℚ
  canShoot : Bool
  active : Bool
  selected : Bool
  showRange : Bool
  rotationAngle : ℝ
  targetAngle : ℝ
  rotationSpeed : ℝ
  muzzleFlash : ℚ
  stats : TowerStats

/-- The `Tower` constructor for a valid type. -/
def Tower.init (type : TowerType) (x y : ℝ) : Tower :=
  let config := TOWER_TYPES type
  { type := type, damage := config.damage, range := config.range,
    fireRate := config.fireRate, cost := config.cost,
    projectileSpeed := config.projectileSpeed, splash := config.splash,
    splashRadius := config.splashRadius, size := config.size,
    posX := x, posY := y, target := none,
    targetingMode := .closest_to_end, lastShotTime := 0,
    shotCooldown := 1000 / config.fireRate, canShoot := true,
    active := true, selected := false, showRange := false,
    rotationAngle := 0, targetAngle := 0, rotationSpeed := 5,
    muzzleFlash := 0,
    stats := { enemiesKilled := 0, totalDamageDealt := 0, shotsFired := 0,
               shotsHit := 0, timeActive := 0 } }

/-- `Tower.isInRange(enemy)`: Euclidean center-to-center distance at most
the tower range. -/
noncomputable def Tower.isInRange (t : Tower) (e : Enemy) : Bool :=
  decide (distance t.posX t.posY e.posX e.posY ≤ t.range)

/-- The errors the embedded JavaScript fragments can raise. -/
inductive JsError where
  | typeError
deriving DecidableEq

/-- A JavaScript property value that code attempts to call: either a plain
boolean data property or a function (method). -/
inductive JsValue where
  | boolean (b : Bool)
  | function (f : ℚ → Bool)

/-- Calling a property value: calling a non-function value throws a
TypeError; calling a function applies it. -/
def jsCall (v : JsValue) (now : ℚ) : Except JsError Bool :=
  match v with
  | .boolean _ => .error .typeError
  | .function f => .ok (f now)

/-- The prototype method `Tower.prototype.canShoot`:
`Date.now() - lastShotTime >= shotCooldown`. -/
def Tower.canShootPrototype (t : Tower) (now : ℚ) : Bool :=
  now - t.lastShotTime ≥ t.shotCooldown

/-- Resolution of the property name `canShoot` on a tower instance.  The
constructor's own data property `this.canShoot = true` (a boolean) shadows
the prototype method `canShoot()`, so the lookup yields the boolean, not
the function. -/
def Tower.canShootLookup (t : Tower) : JsValue :=
  .boolean t.canShoot

/-- Evaluation of the expression `this.canShoot()` on a tower. -/
def Tower.callCanShoot (t : Tower) (now : ℚ) : Except JsError Bool :=
  jsCall t.canShootLookup now

/-- The `reduce`-based selection of `Tower.selectBestTarget` over the valid
targets (kept with their index in the live list, standing for the object
identity JavaScript tracks through references).  JavaScript `reduce` with
no initial value starts from the first element, so ties keep the earlier
candidate. -/
noncomputable def Tower.selectBestTarget (t : Tower)
    (validTargets : List (ℕ × Enemy)) : Option (ℕ × Enemy) :=
  match validTargets with
  | [] => none
  | v :: rest =>
    some (match t.targetingMode with
      | .closest_to_end => rest.foldl (fun best cur =>
          if cur.2.getDistanceToEnd < best.2.getDistanceToEnd then cur else best) v
      | .closest_to_tower => rest.foldl (fun best cur =>
          if distance t.posX t.posY cur.2.posX cur.2.posY <
             distance t.posX t.posY best.2.posX best.2.posY then cur else best) v
      | .strongest => rest.foldl (fun best cur =>
          if cur.2.health > best.2.health then cur else best) v
      | .weakest => rest.foldl (fun best cur =>
          if cur.2.health < best.2.health then cur else best) v)

/-- `Tower.findTarget(enemies)`: drop a dead/out-of-range current target,
keep a still-valid one, otherwise select among the alive in-range
enemies. -/
noncomputable def Tower.findTarget (t : Tower) (enemies : List Enemy) : Tower :=
  let t1 :=
    match t.target with
    | some i =>
      match enemies.get? i with
      | some e => if !e.isAlive || !(t.isInRange e) then { t with target := none } else t
      | none => { t with target := none }
    | none => t
  match t1.target with
  | some _ => t1
  | none =>
    let validTargets := (enemies.enum.filter fun p => p.2.isAlive && t1.isInRange p.2)
    if validTargets.isEmpty then { t1 with target := none }
    else { t1 with target := (t1.selectBestTarget validTargets).map Prod.fst }



/-! ### Projectiles (class Projectile) -/

/-- State of one projectile, the fields of `class Projectile` (visual color
and the random debugging id omitted).  `target` is the object reference
embedded as an index into the live enemy list; `targetPos` is the position
snapshot the constructor copies out of the target. -/
structure Projectile where
  posX : ℝ
  posY : ℝ
  startX : ℝ
  startY : ℝ
  target : Option ℕ
  targetPosX : ℝ
  targetPosY : ℝ
  speed : ℝ
  velX : ℝ
  velY : ℝ
  damage : ℚ
  splash : Bool
  splashRadius : ℝ
  active : Bool
  hasHit : Bool
  markedForRemoval : Bool
  size : ℝ
  trail : List (ℝ × ℝ)
  trailLength : ℕ
  rotationAngle : ℝ
  glowIntensity : ℝ
  timeAlive : ℚ
  maxLifetime : ℚ
  distanceTraveled : ℝ
  maxDistance : ℝ
  useTargetPrediction : Bool
  predictionTime : ℝ

/-- `Projectile.calculateTargetVelocity`: the target''s heading times its
speed and path multiplier (zero when there is no target). -/
noncomputable def calculateTargetVelocity (tgt : Option Enemy) : ℝ × ℝ :=
  match tgt with
  | none => (0, 0)
  | some e =>
    let targetSpeed := ((e.speed * e.pathSpeed : ℚ) : ℝ)
    (e.dirX * targetSpeed, e.dirY * targetSpeed)

/-- `Projectile.predictTargetPosition`: extrapolate the live target by the
lead time `min(distance/speed, predictionTime)`; fall back to the stored
target-position snapshot for a missing or dead target. -/
noncomputable def predictTargetPos (posX posY speed predictionTime : ℝ)
    (tgt : Option Enemy) (fallbackX fallbackY : ℝ) : ℝ × ℝ :=
  match tgt with
  | some e =>
    if e.isAlive then
      let tv := calculateTargetVelocity (some e)
      let distanceToTarget := distance posX posY e.posX e.posY
      let timeToReach := distanceToTarget / speed
      let lead := min timeToReach predictionTime
      (e.posX + tv.1 * lead, e.posY + tv.2 * lead)
    else (fallbackX, fallbackY)
  | none => (fallbackX, fallbackY)

/-- The `Projectile` constructor followed by `calculateInitialVelocity`:
aim at the (possibly predicted) target position, normalize to the
projectile speed, and deactivate on the degenerate zero-distance case. -/
noncomputable def Projectile.init (x y : ℝ) (target : Option ℕ)
    (enemies : List Enemy) (damage : ℚ) (speed : ℝ) (splash : Bool)
    (splashRadius : ℝ) : Projectile :=
  let tgtE := target.bind enemies.get?
  let targetPos : ℝ × ℝ :=
    match tgtE with
    | some e => (e.posX, e.posY)
    | none => (x, y)
  let p : Projectile :=
    { posX := x, posY := y, startX := x, startY := y, target := target,
      targetPosX := targetPos.1, targetPosY := targetPos.2, speed := speed,
      velX := 0, velY := 0, damage := damage, splash := splash,
      splashRadius := splashRadius, active := true, hasHit := false,
      markedForRemoval := false, size := 6, trail := [], trailLength := 5,
      rotationAngle := 0, glowIntensity := 1, timeAlive := 0,
      maxLifetime := 5000, distanceTraveled := 0, maxDistance := 1000,
      useTargetPrediction := true, predictionTime := 1/2 }
  let aim : ℝ × ℝ :=
    if p.useTargetPrediction && (tgtE.map Enemy.isAlive).getD false then
      predictTargetPos p.posX p.posY p.speed p.predictionTime tgtE
        p.targetPosX p.targetPosY
    else (p.targetPosX, p.targetPosY)
  let dx := aim.1 - p.posX
  let dy := aim.2 - p.posY
  let dist := Real.sqrt (dx * dx + dy * dy)
  if dist > 0 then
    { p with velX := dx / dist * p.speed, velY := dy / dist * p.speed,
             rotationAngle := angleBetween p.posX p.posY aim.1 aim.2 }
  else
    { p with velX := 0, velY := 0, active := false }

/-- `Projectile.destroy`. -/
def Projectile.destroy (p : Projectile) : Projectile :=
  { p with active := false, markedForRemoval := true }

/-- `Projectile.adjustTrajectory`: blend the velocity 10% per frame toward
the newly predicted target position. -/
noncomputable def Projectile.adjustTrajectory (p : Projectile)
    (tgt : Option Enemy) : Projectile :=
  match tgt with
  | some e =>
    if e.isAlive then
      let predicted := predictTargetPos p.posX p.posY p.speed p.predictionTime
        (some e) p.targetPosX p.targetPosY
      let dx := predicted.1 - p.posX
      let dy := predicted.2 - p.posY
      let dist := Real.sqrt (dx * dx + dy * dy)
      if dist > 0 then
        let correctionFactor : ℝ := 1/10
        let newVelX := dx / dist * p.speed
        let newVelY := dy / dist * p.speed
        let velX := lerp p.velX newVelX correctionFactor
        let velY := lerp p.velY newVelY correctionFactor
        { p with velX := velX, velY := velY,
                 rotationAngle := Complex.arg ⟨velX, velY⟩ }
      else p
    else p
  | none => p

/-- `Projectile.updatePosition(deltaTime)`: integrate the position, add the
traveled distance, deactivate past the distance cap, otherwise home in on a
still-live target. -/
noncomputable def Projectile.updatePosition (p : Projectile) (deltaTime : ℚ)
    (enemies : List Enemy) : Projectile :=
  let deltaSeconds := ((deltaTime : ℚ) : ℝ) / 1000
  let newX := p.posX + p.velX * deltaSeconds
  let newY := p.posY + p.velY * deltaSeconds
  let moveDistance := distance p.posX p.posY newX newY
  let p1 := { p with posX := newX, posY := newY,
                     distanceTraveled := p.distanceTraveled + moveDistance }
  if p1.distanceTraveled > p1.maxDistance then p1.destroy
  else
    let tgt := p1.target.bind enemies.get?
    if (tgt.map Enemy.isAlive).getD false && p1.useTargetPrediction then
      p1.adjustTrajectory tgt
    else p1

/-- `Projectile.updateTrail`: push the current position, keep at most
`trailLength` entries by shifting the oldest out. -/
def Projectile.updateTrail (p : Projectile) : Projectile :=
  let trail := p.trail ++ [(p.posX, p.posY)]
  let trail := if trail.length > p.trailLength then trail.drop 1 else trail
  { p with trail := trail }

/-- `Projectile.checkCollisionWithEnemy(enemy)`: circle against circle,
projectile radius `size / 2` against the enemy''s bounding radius. -/
noncomputable def Projectile.checkCollisionWithEnemy (p : Projectile)
    (e : Enemy) : Bool :=
  decide (distance p.posX p.posY e.posX e.posY ≤ e.boundsRadius + p.size / 2)

/-- In-place update of one list slot, modeling a method call on the object
stored at that position. -/
def modifyIdx : List Enemy → ℕ → (Enemy → Enemy) → List Enemy
  | [], _, _ => []
  | e :: rest, 0, f => f e :: rest
  | e :: rest, j + 1, f => e :: modifyIdx rest j f

/-- One iteration of the `applySplashDamage` loop at slot index `j`: skip
dead units and the struck unit itself (`enemy === centerEnemy` becomes
`j = centerIdx`), apply the distance-scaled floored splash damage when it
is positive. -/
noncomputable def splashStep (p : Projectile) (splashDamage : ℤ)
    (centerIdx j : ℕ) (e : Enemy) : Enemy :=
  if !e.isAlive || j = centerIdx then e
  else
    let dist := distance p.posX p.posY e.posX e.posY
    if dist ≤ p.splashRadius then
      let damageMultiplier := 1 - dist / p.splashRadius
      let finalDamage : ℤ := Int.floor ((splashDamage : ℝ) * damageMultiplier)
      if finalDamage > 0 then (e.takeDamage (finalDamage : ℚ)).2 else e
    else e

/-- The `applySplashDamage` loop, iterating `splashStep` with the running
slot index. -/
noncomputable def applySplashAux (p : Projectile) (splashDamage : ℤ)
    (centerIdx : ℕ) : ℕ → List Enemy → List Enemy
  | _, [] => []
  | j, e :: rest =>
    splashStep p splashDamage centerIdx j e ::
      applySplashAux p splashDamage centerIdx (j + 1) rest

/-- `Projectile.applySplashDamage(centerEnemy, allEnemies)`: 70% of the
direct damage, scaled down linearly with distance from the impact point,
floored, skipping dead units, the struck unit itself, and non-positive
results. -/
noncomputable def Projectile.applySplashDamage (p : Projectile)
    (centerIdx : ℕ) (allEnemies : List Enemy) : List Enemy :=
  let splashDamage : ℤ := Int.floor ((p.damage : ℚ) * (7/10))
  applySplashAux p splashDamage centerIdx 0 allEnemies

/-- `Projectile.hit(hitEnemy, allEnemies)`: guarded by `hasHit`; applies the
direct damage to the struck unit, then splash when enabled, then destroys
the projectile. -/
noncomputable def Projectile.hit (p : Projectile) (hitIdx : ℕ)
    (allEnemies : List Enemy) : Projectile × List Enemy :=
  if p.hasHit then (p, allEnemies)
  else
    let p1 := { p with hasHit := true }
    let enemies1 := modifyIdx allEnemies hitIdx (fun e => (e.takeDamage p1.damage).2)
    let enemies2 :=
      if p1.splash && decide (p1.splashRadius > 0) then
        p1.applySplashDamage hitIdx enemies1
      else enemies1
    (p1.destroy, enemies2)

/-- The fallback scan of `Projectile.checkCollisions`: first live colliding
enemy in list order. -/
noncomputable def findHitIdx (p : Projectile) : ℕ → List Enemy → Option ℕ
  | _, [] => none
  | j, e :: rest =>
    if e.isAlive && p.checkCollisionWithEnemy e then some j
    else findHitIdx p (j + 1) rest

/-- `Projectile.checkCollisions(enemies)`: test the tracked target first
while it is alive; only when the target is missing or dead, scan all live
enemies in list order. -/
noncomputable def Projectile.checkCollisions (p : Projectile)
    (enemies : List Enemy) : Projectile × List Enemy :=
  if !p.active || p.hasHit then (p, enemies)
  else
    match p.target.bind enemies.get? with
    | some e =>
      if e.isAlive then
        if p.checkCollisionWithEnemy e then
          p.hit (p.target.getD 0) enemies
        else (p, enemies)
      else
        match findHitIdx p 0 enemies with
        | some j => p.hit j enemies
        | none => (p, enemies)
    | none =>
      match findHitIdx p 0 enemies with
      | some j => p.hit j enemies
      | none => (p, enemies)

/-- `Projectile.checkBounds`: destroy the projectile once it leaves the
playfield. -/
noncomputable def Projectile.checkBounds (p : Projectile) : Projectile :=
  if isWithinBounds p.posX p.posY then p else p.destroy

/-- `Projectile.updateVisualEffects`: pulse the glow from the lifetime. -/
noncomputable def Projectile.updateVisualEffects (p : Projectile) : Projectile :=
  { p with glowIntensity := 7/10 + 3/10 * Real.sin (((p.timeAlive : ℚ) : ℝ) * (5/1000)) }

/-- `Projectile.update(deltaTime, enemies)`: lifetime check, movement,
trail, collisions, bounds, visual effects, in source order. -/
noncomputable def Projectile.update (p : Projectile) (deltaTime : ℚ)
    (enemies : List Enemy) : Projectile × List Enemy :=
  if !p.active then (p, enemies)
  else
    let p1 := { p with timeAlive := p.timeAlive + deltaTime }
    if p1.timeAlive > p1.maxLifetime then (p1.destroy, enemies)
    else
      let p2 := p1.updatePosition deltaTime enemies
      let p3 := p2.updateTrail
      let r := p3.checkCollisions enemies
      let p4 := r.1.checkBounds
      let p5 := p4.updateVisualEffects
      (p5, r.2)

/-! ### Firing paths (Tower.attemptShoot / Tower.shoot and the
tower-firing block of Game.updateEntities) -/

/-- `Tower.shoot()`: begins with `if (!this.canShoot() || !this.target)
return null`, where evaluating `this.canShoot()` calls the boolean own
property. -/
noncomputable def Tower.shoot (t : Tower) (now : ℚ) (enemies : List Enemy) :
    Except JsError (Tower × Option Projectile) := do
  let cs ← t.callCanShoot now
  if !cs || t.target.isNone then return (t, none)
  let projectile := Projectile.init t.posX t.posY t.target enemies t.damage
    t.projectileSpeed t.splash t.splashRadius
  let st := { t.stats with shotsFired := t.stats.shotsFired + 1 }
  let t1 := { t with lastShotTime := now, muzzleFlash := 100, stats := st }
  return (t1, some projectile)

/-- `Tower.attemptShoot(deltaTime)`: cooldown gate via `this.canShoot()`,
target validity gate, then the 0.1 rad shorter-arc alignment gate, then
`this.shoot()` with the produced projectile discarded. -/
noncomputable def Tower.attemptShoot (t : Tower) (now : ℚ)
    (enemies : List Enemy) : Except JsError Tower := do
  let cs ← t.callCanShoot now
  if !cs then return t
  match t.target.bind enemies.get? with
  | none => return t
  | some tgt =>
    if !tgt.isAlive || !(t.isInRange tgt) then return t
    else
      let angleDiff := |t.targetAngle - t.rotationAngle|
      let normalizedDiff := min angleDiff (2 * Real.pi - angleDiff)
      if normalizedDiff > 1/10 then return t
      else
        let r ← t.shoot now enemies
        return r.1

/-- The per-tower firing block of `Game.updateEntities`:
`if (tower.canShoot() && tower.target) { projectile = tower.shoot(); if
(projectile) push }`. -/
noncomputable def gameTowerFire (t : Tower) (now : ℚ) (enemies : List Enemy)
    (projectiles : List Projectile) :
    Except JsError (Tower × List Projectile) := do
  let cs ← t.callCanShoot now
  if cs && !t.target.isNone then
    let r ← t.shoot now enemies
    match r.2 with
    | some projectile => return (r.1, projectiles ++ [projectile])
    | none => return (r.1, projectiles)
  else return (t, projectiles)

/-- C1.  The firing gate never executes at all: every constructed tower
carries the boolean own property `canShoot = true`, which shadows the
prototype method, so `this.canShoot()` — the first step of
`Tower.attemptShoot`, of `Tower.shoot`, and of the firing block in
`Game.updateEntities` — throws a TypeError on every tick.  No projectile is
ever emitted through any of these paths, so in particular none is emitted
with the cooldown running or with misalignment above 0.1 rad, but the
claimed cooldown/alignment gating logic is unreachable. -/
theorem emplacement_fire_gating_throws (t : Tower) (now : ℚ)
    (enemies : List Enemy) (projectiles : List Projectile) :
    t.attemptShoot now enemies = .error .typeError
  ∧ t.shoot now enemies = .error .typeError
  ∧ gameTowerFire t now enemies projectiles = .error .typeError :=
  ⟨rfl, rfl, rfl⟩



/-! ### Resolution happens at most once (C4) -/

/-- A concrete projectile literal used by the concrete-instance theorems. -/
noncomputable def mkProjectile (x y : ℝ) (damage : ℚ) (splash : Bool) (splashRadius : ℝ)
    (hasHit active : Bool) (target : Option ℕ) : Projectile :=
  { posX := x, posY := y, startX := x, startY := y, target := target,
    targetPosX := x, targetPosY := y, speed := 200, velX := 0, velY := 0,
    damage := damage, splash := splash, splashRadius := splashRadius,
    active := active, hasHit := hasHit, markedForRemoval := false, size := 6,
    trail := [], trailLength := 5, rotationAngle := 0, glowIntensity := 1,
    timeAlive := 0, maxLifetime := 5000, distanceTraveled := 0,
    maxDistance := 1000, useTargetPrediction := true, predictionTime := 1/2 }

theorem hit_already_resolved {p : Projectile} (h : p.hasHit = true)
    (i : ℕ) (es : List Enemy) : p.hit i es = (p, es) := by
  simp [Projectile.hit, h]

theorem hit_sets_resolved {p : Projectile} (h : p.hasHit = false)
    (i : ℕ) (es : List Enemy) :
    (p.hit i es).1.hasHit = true ∧ (p.hit i es).1.active = false := by
  simp [Projectile.hit, h, Projectile.destroy]

theorem checkCollisions_already_resolved {p : Projectile}
    (h : p.hasHit = true) (es : List Enemy) :
    p.checkCollisions es = (p, es) := by
  simp [Projectile.checkCollisions, h]

theorem adjustTrajectory_hasHit (p : Projectile) (tgt : Option Enemy) :
    (p.adjustTrajectory tgt).hasHit = p.hasHit := by
  unfold Projectile.adjustTrajectory
  rcases tgt with _ | e
  · rfl
  · dsimp only
    split_ifs <;> rfl

theorem updatePosition_hasHit (p : Projectile) (dt : ℚ) (es : List Enemy) :
    (p.updatePosition dt es).hasHit = p.hasHit := by
  simp only [Projectile.updatePosition]
  split_ifs <;> simp [Projectile.destroy, adjustTrajectory_hasHit]

theorem updateTrail_hasHit (p : Projectile) :
    p.updateTrail.hasHit = p.hasHit := rfl

theorem updateVisualEffects_hasHit (p : Projectile) :
    p.updateVisualEffects.hasHit = p.hasHit := rfl

theorem checkBounds_hasHit (p : Projectile) :
    p.checkBounds.hasHit = p.hasHit := by
  unfold Projectile.checkBounds Projectile.destroy
  split_ifs <;> rfl

theorem checkCollisions_cases (p : Projectile) (es : List Enemy) :
    p.checkCollisions es = (p, es) ∨
      ((p.checkCollisions es).1.hasHit = true) := by
  by_cases h : p.hasHit = true
  · exact Or.inl (checkCollisions_already_resolved h es)
  · have h' : p.hasHit = false := by simpa using h
    unfold Projectile.checkCollisions
    by_cases hg : (!p.active || p.hasHit) = true
    · rw [if_pos hg]
      exact Or.inl rfl
    · rw [if_neg hg]
      rcases htb : p.target.bind es.get? with _ | e
      · dsimp only
        rcases hidx : findHitIdx p 0 es with _ | j
        · exact Or.inl rfl
        · exact Or.inr (hit_sets_resolved h' j es).1
      · dsimp only
        by_cases he : e.isAlive = true
        · rw [if_pos he]
          by_cases hc : p.checkCollisionWithEnemy e = true
          · rw [if_pos hc]
            exact Or.inr (hit_sets_resolved h' (p.target.getD 0) es).1
          · rw [if_neg hc]
            exact Or.inl rfl
        · rw [if_neg he]
          rcases hidx : findHitIdx p 0 es with _ | j
          · exact Or.inl rfl
          · exact Or.inr (hit_sets_resolved h' j es).1

theorem update_already_resolved {p : Projectile} (h : p.hasHit = true)
    (dt : ℚ) (es : List Enemy) :
    (p.update dt es).1.hasHit = true ∧ (p.update dt es).2 = es := by
  simp only [Projectile.update]
  by_cases ha : (!p.active) = true
  · rw [if_pos ha]
    exact ⟨h, rfl⟩
  · rw [if_neg ha]
    split_ifs with hl
    · exact ⟨h, rfl⟩
    · have h3 : ((({p with timeAlive := p.timeAlive + dt} :
          Projectile).updatePosition dt es).updateTrail).hasHit = true := by
        rw [updateTrail_hasHit, updatePosition_hasHit]
        exact h
      rw [checkCollisions_already_resolved h3]
      refine ⟨?_, rfl⟩
      rw [updateVisualEffects_hasHit, checkBounds_hasHit]
      exact h3

theorem update_no_transition_no_damage {p : Projectile} {dt : ℚ}
    {es : List Enemy} (h : (p.update dt es).1.hasHit = false) :
    (p.update dt es).2 = es := by
  simp only [Projectile.update] at h ⊢
  by_cases ha : (!p.active) = true
  · rw [if_pos ha]
  · rw [if_neg ha] at h ⊢
    split_ifs with hl
    · rfl
    · rw [if_neg hl] at h
      rcases checkCollisions_cases
          ((({p with timeAlive := p.timeAlive + dt} :
            Projectile).updatePosition dt es).updateTrail) es with hc | hc
      · rw [hc]
      · rw [updateVisualEffects_hasHit, checkBounds_hasHit] at h
        rw [hc] at h
        simp at h

/-- C4.  A projectile''s `hasHit` flag transitions false→true at most once:
`hit` is a no-op once the flag is set, setting the flag and deactivating the
projectile happen in the same single resolution, an already-resolved
projectile keeps the flag and never changes the enemy list again, and a tick
that ends with the flag still unset has applied no damage at all. -/
theorem projectile_resolves_once (p : Projectile) (dt : ℚ) (es : List Enemy)
    (i : ℕ) :
    (p.hasHit = true → p.hit i es = (p, es))
  ∧ (p.hasHit = false →
      (p.hit i es).1.hasHit = true ∧ (p.hit i es).1.active = false)
  ∧ (p.hasHit = true →
      (p.update dt es).1.hasHit = true ∧ (p.update dt es).2 = es)
  ∧ ((p.update dt es).1.hasHit = false → (p.update dt es).2 = es) :=
  ⟨fun h => hit_already_resolved h i es,
   fun h => hit_sets_resolved h i es,
   fun h => update_already_resolved h dt es,
   fun h => update_no_transition_no_damage h⟩

/-- Concrete instance for C4: an already-resolved projectile neither
re-applies `hit` nor changes the enemy list on a tick, and a fresh
projectile''s `hit` sets the flag and deactivates it. -/
theorem projectile_resolves_once_witness :
    (mkProjectile 0 0 25 false 0 true true none).hit 0 [mkEnemy 100 0 0 0 true] =
      ((mkProjectile 0 0 25 false 0 true true none), [mkEnemy 100 0 0 0 true])
  ∧ ((mkProjectile 0 0 25 false 0 true true none).update 16 [mkEnemy 100 0 0 0 true]).2 =
      [mkEnemy 100 0 0 0 true]
  ∧ ((mkProjectile 0 0 25 false 0 false true none).hit 0 [mkEnemy 100 0 0 0 true]).1.hasHit = true := by
  have h1 := projectile_resolves_once (mkProjectile 0 0 25 false 0 true true none)
    16 [mkEnemy 100 0 0 0 true] 0
  have h2 := projectile_resolves_once (mkProjectile 0 0 25 false 0 false true none)
    16 [mkEnemy 100 0 0 0 true] 0
  exact ⟨h1.1 rfl, (h1.2.2.1 rfl).2, (h2.2.1 rfl).1⟩



/-! ### Target acquisition (C7) -/

/-- JavaScript `reduce` with no initial value keeps a running minimum of
`f`, starting from the first element; on ties the earlier candidate is
kept.  The result splits the list into strictly-worse elements before it
and no-better elements after it. -/
theorem foldl_min_split {α : Type} (f : α → ℝ) (v : α) (rest : List α) :
    ∃ l1 l2,
      v :: rest =
        l1 ++ (rest.foldl (fun best cur => if f cur < f best then cur else best) v) :: l2
      ∧ f (rest.foldl (fun best cur => if f cur < f best then cur else best) v) ≤ f v
      ∧ (∀ q ∈ l1, f (rest.foldl (fun best cur => if f cur < f best then cur else best) v) < f q)
      ∧ (∀ q ∈ l2, f (rest.foldl (fun best cur => if f cur < f best then cur else best) v) ≤ f q) := by
  induction rest generalizing v with
  | nil => exact ⟨[], [], rfl, le_refl _, by simp, by simp⟩
  | cons c cs ih =>
    by_cases hc : f c < f v
    · have hfold : (c :: cs).foldl
          (fun best cur => if f cur < f best then cur else best) v =
          cs.foldl (fun best cur => if f cur < f best then cur else best) c := by
        simp [List.foldl_cons, hc]
      obtain ⟨l1, l2, heq, hle, hl1, hl2⟩ := ih c
      refine ⟨v :: l1, l2, ?_, ?_, ?_, ?_⟩
      · rw [hfold, List.cons_append, ← heq]
      · rw [hfold]; exact le_of_lt (lt_of_le_of_lt hle hc)
      · intro q hq
        rw [hfold]
        rcases List.mem_cons.mp hq with hq | hq
        · subst hq; exact lt_of_le_of_lt hle hc
        · exact hl1 q hq
      · intro q hq
        rw [hfold]; exact hl2 q hq
    · have hfold : (c :: cs).foldl
          (fun best cur => if f cur < f best then cur else best) v =
          cs.foldl (fun best cur => if f cur < f best then cur else best) v := by
        simp [List.foldl_cons, hc]
      obtain ⟨l1, l2, heq, hle, hl1, hl2⟩ := ih v
      rcases l1 with _ | ⟨a, l1t⟩
      · simp only [List.nil_append] at heq
        have hrv : cs.foldl (fun best cur => if f cur < f best then cur else best) v = v :=
          (List.cons.injEq _ _ _ _ ▸ heq : _ ∧ _).1.symm
        have hcs : cs = l2 := ((List.cons.injEq _ _ _ _).mp heq).2
        refine ⟨[], c :: cs, ?_, ?_, by simp, ?_⟩
        · rw [hfold, List.nil_append, hrv]
        · rw [hfold]; exact hle
        · intro q hq
          rw [hfold]
          rcases List.mem_cons.mp hq with hq | hq
          · subst hq
            rw [hrv]
            exact le_of_not_lt hc
          · exact hl2 q (hcs ▸ hq)
      · have ha : a = v := ((List.cons.injEq _ _ _ _).mp heq).1.symm
        have hcs : cs = l1t ++
            (cs.foldl (fun best cur => if f cur < f best then cur else best) v) :: l2 :=
          ((List.cons.injEq _ _ _ _).mp heq).2
        refine ⟨v :: c :: l1t, l2, ?_, ?_, ?_, ?_⟩
        · rw [hfold]
          simp only [List.cons_append]
          rw [← hcs]
        · rw [hfold]; exact hle
        · intro q hq
          rw [hfold]
          have hrv : f (cs.foldl (fun best cur => if f cur < f best then cur else best) v) < f v := by
            have := hl1 a (by simp)
            rwa [ha] at this
          rcases List.mem_cons.mp hq with hq | hq
          · subst hq; exact hrv
          · rcases List.mem_cons.mp hq with hq | hq
            · subst hq
              exact lt_of_lt_of_le hrv (le_of_not_lt hc)
            · exact hl1 q (by simp [hq])
        · intro q hq
          rw [hfold]; exact hl2 q hq

/-- C7.  When an idle emplacement acquires a target, the candidate set is
exactly the alive units within range (in live-list order), and under the
nearest-to-goal policy the stored target is the index of a candidate
minimizing the remaining route distance `totalLength * (1 - progress)`,
with every earlier candidate strictly farther from the goal — the
deterministic first-encountered tie-break of `reduce`. -/
theorem targetAcquisition_closest_to_end (t : Tower) (enemies : List Enemy)
    (ht : t.target = none) (hm : t.targetingMode = .closest_to_end)
    (v : ℕ × Enemy) (rest : List (ℕ × Enemy))
    (hc : (enemies.enum.filter fun q => q.2.isAlive && t.isInRange q.2) = v :: rest) :
    ∃ r l1 l2,
      (t.findTarget enemies).target = some r.1
      ∧ v :: rest = l1 ++ r :: l2
      ∧ (∀ q ∈ l1, r.2.getDistanceToEnd < q.2.getDistanceToEnd)
      ∧ (∀ q ∈ l2, r.2.getDistanceToEnd ≤ q.2.getDistanceToEnd) := by
  obtain ⟨l1, l2, heq, hle, hl1, hl2⟩ :=
    foldl_min_split (fun q : ℕ × Enemy => q.2.getDistanceToEnd) v rest
  refine ⟨_, l1, l2, ?_, heq, hl1, hl2⟩
  simp only [Tower.findTarget, ht]
  rw [hc]
  simp only [List.isEmpty_cons, Bool.false_eq_true, if_false,
    Tower.selectBestTarget, hm]
  rfl



/-- Concrete instance for C7: a default emplacement at `(100,100)` scanning
two co-located in-range candidates with progress `0.5` (first) and `0.8`
(second) stores the progress-0.8 unit (index 1) as its target. -/
theorem targetAcquisition_closest_to_end_witness :
    ((Tower.init .BASIC 100 100).findTarget
      [mkEnemy 100 100 100 (1/2) true, mkEnemy 100 100 100 (4/5) true]).target =
      some 1 := by
  have hin : ∀ pr : ℝ,
      (Tower.init .BASIC 100 100).isInRange (mkEnemy 100 100 100 pr true) = true := by
    intro pr
    simp only [Tower.isInRange, Tower.init, TOWER_TYPES, mkEnemy, distance,
      decide_eq_true_eq]
    norm_num
  have hc : (([mkEnemy 100 100 100 (1/2) true,
        mkEnemy 100 100 100 (4/5) true] : List Enemy).enum.filter
      fun q => q.2.isAlive && (Tower.init .BASIC 100 100).isInRange q.2) =
      [(0, mkEnemy 100 100 100 (1/2) true), (1, mkEnemy 100 100 100 (4/5) true)] := by
    have halive : ∀ (h : ℚ) (px py pr : ℝ),
        (mkEnemy h px py pr true).isAlive = true := fun _ _ _ _ => rfl
    simp [List.enum, List.enumFrom, List.filter, hin, halive]
  obtain ⟨r, l1, l2, htgt, heq, hl1, hl2⟩ :=
    targetAcquisition_closest_to_end (Tower.init .BASIC 100 100) _ rfl rfl _ _ hc
  rcases l1 with _ | ⟨x, l1t⟩
  · simp only [List.nil_append] at heq
    injection heq with h1 h2
    have hmem : (1, mkEnemy 100 100 100 (4/5) true) ∈ l2 := by
      rw [← h2]; simp
    have := hl2 _ hmem
    rw [← h1] at this
    norm_num [Enemy.getDistanceToEnd, calculatePathLength_eq, mkEnemy] at this
  · injection heq with h1 h2
    rcases l1t with _ | ⟨y, l1tt⟩
    · injection h2 with h3 h4
      rw [htgt, ← h3]
    · injection h2 with h3 h4
      exact absurd h4.symm (by simp)



/-! ### Splash resolution (C5) -/

/-- The splash amount named by the claim:
`floor(floor(damage * 0.7) * (1 - distance/splashRadius))` for a unit at
distance `distance` from the impact point. -/
noncomputable def specSplashAmount (p : Projectile) (e : Enemy) : ℤ :=
  Int.floor (((Int.floor ((p.damage : ℚ) * (7/10)) : ℤ) : ℝ) *
    (1 - distance p.posX p.posY e.posX e.posY / p.splashRadius))

theorem modifyIdx_get (l : List Enemy) :
    ∀ (i j : ℕ) (f : Enemy → Enemy),
      (modifyIdx l i f).get? j = if j = i then (l.get? j).map f else l.get? j := by
  induction l with
  | nil => intro i j f; simp [modifyIdx]
  | cons e rest ih =>
    intro i j f
    match i, j with
    | 0, 0 => simp [modifyIdx]
    | 0, j + 1 => simp [modifyIdx]
    | i + 1, 0 => simp [modifyIdx]
    | i + 1, j + 1 =>
      simp only [modifyIdx, List.get?_cons_succ, ih i j f]
      by_cases h : j = i <;> simp [h]

theorem applySplashAux_get (p : Projectile) (sd : ℤ) (c : ℕ)
    (l : List Enemy) : ∀ (k j : ℕ),
    (applySplashAux p sd c k l).get? j =
      (l.get? j).map (fun e => splashStep p sd c (k + j) e) := by
  induction l with
  | nil => intro k j; simp [applySplashAux]
  | cons e rest ih =>
    intro k j
    match j with
    | 0 => simp [applySplashAux]
    | j + 1 =>
      simp only [applySplashAux, List.get?_cons_succ, ih (k + 1) j]
      have : k + 1 + j = k + (j + 1) := by omega
      rw [this]

theorem splashStep_center (p : Projectile) (sd : ℤ) (c : ℕ) (e : Enemy) :
    splashStep p sd c c e = e := by
  simp [splashStep]

theorem splashStep_flat (p : Projectile) (c j : ℕ) (e : Enemy) (hj : ¬ j = c) :
    splashStep p (Int.floor ((p.damage : ℚ) * (7/10))) c j e =
      if e.isAlive = true ∧ distance p.posX p.posY e.posX e.posY ≤ p.splashRadius
         ∧ 0 < specSplashAmount p e
      then (e.takeDamage ((specSplashAmount p e : ℤ) : ℚ)).2
      else e := by
  unfold splashStep specSplashAmount
  by_cases ha : e.isAlive = true
  · by_cases hd : distance p.posX p.posY e.posX e.posY ≤ p.splashRadius
    · by_cases hpos :
        0 < Int.floor (((Int.floor ((p.damage : ℚ) * (7/10)) : ℤ) : ℝ) *
          (1 - distance p.posX p.posY e.posX e.posY / p.splashRadius))
      · simp [ha, hj, hd, hpos]
      · simp [ha, hj, hd, hpos]
    · simp [ha, hj, hd]
  · simp [ha]

/-- C5.  When an unresolved splash projectile (splash flag on, positive
radius) hits the unit at slot `i`, that unit receives exactly the direct
damage and never any splash from the same projectile, while every other
slot receives `floor(floor(damage*0.7) * (1 - distance/splashRadius))`
exactly when it holds a live unit within the splash radius and that floored
amount is positive, and is untouched otherwise; with the splash flag off or
a non-positive radius only the direct damage is applied. -/
theorem splash_direct_exclusive (p : Projectile) (i : ℕ) (es : List Enemy)
    (j : ℕ) (hs : p.hasHit = false) :
    (p.splash = true → p.splashRadius > 0 →
      (p.hit i es).2.get? j =
        (if j = i then (es.get? i).map (fun e => (e.takeDamage p.damage).2)
         else (es.get? j).map (fun e =>
           if e.isAlive = true ∧
              distance p.posX p.posY e.posX e.posY ≤ p.splashRadius ∧
              0 < specSplashAmount p e
           then (e.takeDamage ((specSplashAmount p e : ℤ) : ℚ)).2
           else e)))
  ∧ (p.splash = false ∨ ¬ p.splashRadius > 0 →
      (p.hit i es).2 = modifyIdx es i (fun e => (e.takeDamage p.damage).2)) := by
  constructor
  · intro hsp hr
    simp only [Projectile.hit, hs, Bool.false_eq_true, if_false,
      Projectile.applySplashDamage]
    dsimp only
    rw [if_pos (by simp [hsp, hr])]
    rw [applySplashAux_get, Nat.zero_add]
    by_cases hj : j = i
    · subst hj
      rw [if_pos rfl, modifyIdx_get, if_pos rfl]
      rcases es.get? j with _ | e
      · rfl
      · simp [splashStep_center]
    · rw [if_neg hj, modifyIdx_get, if_neg hj]
      rcases es.get? j with _ | e
      · rfl
      · rw [Option.map_some', Option.map_some']
        congr 1
        exact splashStep_flat { p with hasHit := true } i j e hj
  · intro hoff
    simp only [Projectile.hit, hs, Bool.false_eq_true, if_false]
    dsimp only
    rw [if_neg ?hcond]
    case hcond =>
      rcases hoff with hoff | hoff <;> simp [hoff]



/-- Concrete instance for C5: an area projectile (damage 40, radius 50)
resolving at the origin against slot 0 deals exactly 40 direct damage to
the struck unit, `floor(floor(40*0.7)*(1-30/50)) = 11` splash to a live
unit 30 px away, and nothing to a unit 100 px away. -/
theorem splash_direct_exclusive_witness :
    (((mkProjectile 0 0 40 true 50 false true none).hit 0
        [mkEnemy 100 0 0 0 true, mkEnemy 100 30 0 0 true,
         mkEnemy 100 100 0 0 true]).2.get? 0).map Enemy.health = some 60
  ∧ (((mkProjectile 0 0 40 true 50 false true none).hit 0
        [mkEnemy 100 0 0 0 true, mkEnemy 100 30 0 0 true,
         mkEnemy 100 100 0 0 true]).2.get? 1).map Enemy.health = some 89
  ∧ (((mkProjectile 0 0 40 true 50 false true none).hit 0
        [mkEnemy 100 0 0 0 true, mkEnemy 100 30 0 0 true,
         mkEnemy 100 100 0 0 true]).2.get? 2).map Enemy.health = some 100 := by
  have hd1 : distance (mkProjectile 0 0 40 true 50 false true none).posX
      (mkProjectile 0 0 40 true 50 false true none).posY
      (mkEnemy 100 30 0 0 true).posX (mkEnemy 100 30 0 0 true).posY = 30 := by
    exact distance_eval 0 0 30 0 30 (by norm_num) (by norm_num)
  have hd2 : distance (mkProjectile 0 0 40 true 50 false true none).posX
      (mkProjectile 0 0 40 true 50 false true none).posY
      (mkEnemy 100 100 0 0 true).posX (mkEnemy 100 100 0 0 true).posY = 100 := by
    exact distance_eval 0 0 100 0 100 (by norm_num) (by norm_num)
  have hfl : (Int.floor (((mkProjectile 0 0 40 true 50 false true none).damage : ℚ)
      * (7/10)) : ℤ) = 28 := by
    norm_num [mkProjectile]
  have hspec1 : specSplashAmount (mkProjectile 0 0 40 true 50 false true none)
      (mkEnemy 100 30 0 0 true) = 11 := by
    unfold specSplashAmount
    rw [hd1, hfl]
    norm_num [mkProjectile]
  refine ⟨?_, ?_, ?_⟩
  · rw [(splash_direct_exclusive (mkProjectile 0 0 40 true 50 false true none) 0 _ 0
      rfl).1 rfl (by norm_num [mkProjectile])]
    rw [if_pos rfl]
    simp [Enemy.takeDamage, mkEnemy]
    norm_num [mkProjectile]
  · rw [(splash_direct_exclusive (mkProjectile 0 0 40 true 50 false true none) 0 _ 1
      rfl).1 rfl (by norm_num [mkProjectile])]
    rw [if_neg (by norm_num)]
    simp only [List.get?_cons_succ, List.get?_cons_zero, Option.map_some']
    rw [if_pos ⟨rfl, by rw [hd1]; norm_num [mkProjectile], by rw [hspec1]; norm_num⟩]
    rw [hspec1]
    simp [Enemy.takeDamage, mkEnemy]
    norm_num
  · rw [(splash_direct_exclusive (mkProjectile 0 0 40 true 50 false true none) 0 _ 2
      rfl).1 rfl (by norm_num [mkProjectile])]
    rw [if_neg (by norm_num)]
    simp only [List.get?_cons_succ, List.get?_cons_zero, Option.map_some']
    rw [if_neg ?hc2]
    case hc2 =>
      rintro ⟨-, hle, -⟩
      rw [hd2] at hle
      norm_num [mkProjectile] at hle
    rfl



/-! ### Wave scheduling (class WaveManager) -/

/-- IEEE-style JavaScript number for the wave statistics, where division by
zero and comparisons against the initial `Infinity`/`0` records matter:
a finite rational, positive or negative infinity, or NaN. -/
inductive JsNum where
  | fin (q : ℚ)
  | posInf
  | negInf
  | nan
deriving DecidableEq

/-- JavaScript addition on `JsNum`. -/
def jsAdd : JsNum → JsNum → JsNum
  | .nan, _ => .nan
  | _, .nan => .nan
  | .fin a, .fin b => .fin (a + b)
  | .fin _, .posInf => .posInf
  | .fin _, .negInf => .negInf
  | .posInf, .fin _ => .posInf
  | .negInf, .fin _ => .negInf
  | .posInf, .posInf => .posInf
  | .negInf, .negInf => .negInf
  | .posInf, .negInf => .nan
  | .negInf, .posInf => .nan

/-- JavaScript multiplication on `JsNum` (`0 * Infinity` is NaN). -/
def jsMul : JsNum → JsNum → JsNum
  | .nan, _ => .nan
  | _, .nan => .nan
  | .fin a, .fin b => .fin (a * b)
  | .fin a, .posInf => if a > 0 then .posInf else if a < 0 then .negInf else .nan
  | .fin a, .negInf => if a > 0 then .negInf else if a < 0 then .posInf else .nan
  | .posInf, .fin b => if b > 0 then .posInf else if b < 0 then .negInf else .nan
  | .negInf, .fin b => if b > 0 then .negInf else if b < 0 then .posInf else .nan
  | .posInf, .posInf => .posInf
  | .posInf, .negInf => .negInf
  | .negInf, .posInf => .negInf
  | .negInf, .negInf => .posInf

/-- JavaScript division on `JsNum` (`x/0` is signed infinity for `x ≠ 0`,
`0/0` is NaN). -/
def jsDiv : JsNum → JsNum → JsNum
  | .nan, _ => .nan
  | _, .nan => .nan
  | .fin a, .fin b =>
    if b = 0 then (if a > 0 then .posInf else if a < 0 then .negInf else .nan)
    else .fin (a / b)
  | .fin _, .posInf => .fin 0
  | .fin _, .negInf => .fin 0
  | .posInf, .fin b => if b ≥ 0 then .posInf else .negInf
  | .negInf, .fin b => if b ≥ 0 then .negInf else .posInf
  | .posInf, _ => .nan
  | .negInf, _ => .nan

/-- JavaScript `<` on `JsNum` (false whenever NaN is involved). -/
def jsLt : JsNum → JsNum → Bool
  | .nan, _ => false
  | _, .nan => false
  | .fin a, .fin b => decide (a < b)
  | .fin _, .posInf => true
  | .fin _, .negInf => false
  | .posInf, .fin _ => false
  | .negInf, .fin _ => true
  | .posInf, .posInf => false
  | .negInf, .negInf => false
  | .negInf, .posInf => true
  | .posInf, .negInf => false

/-- One `(type, count, spawnInterval)` group of a wave definition. -/
structure EnemyGroup where
  type : EnemyType
  count : ℕ
  spawnInterval : ℚ
deriving DecidableEq

/-- One entry of `WAVE_DATA`. -/
structure WaveDef where
  waveNumber : ℕ
  enemies : List EnemyGroup
  reward : ℚ
deriving DecidableEq

/-- The `WAVE_DATA` table from the constants file. -/
def WAVE_DATA : List WaveDef :=
  [{ waveNumber := 1, enemies := [⟨.BASIC, 10, 1000⟩], reward := 50 },
   { waveNumber := 2, enemies := [⟨.BASIC, 15, 800⟩], reward := 75 },
   { waveNumber := 3, enemies := [⟨.BASIC, 10, 800⟩, ⟨.TANK, 3, 2000⟩],
     reward := 100 },
   { waveNumber := 4, enemies := [⟨.BASIC, 15, 700⟩, ⟨.TANK, 5, 1800⟩],
     reward := 125 },
   { waveNumber := 5, enemies := [⟨.BASIC, 20, 600⟩, ⟨.TANK, 8, 1500⟩,
     ⟨.FAST, 2, 3000⟩], reward := 150 },
   { waveNumber := 6, enemies := [⟨.BASIC, 25, 500⟩, ⟨.TANK, 10, 1200⟩,
     ⟨.FAST, 5, 2500⟩], reward := 200 },
   { waveNumber := 7, enemies := [⟨.BASIC, 30, 400⟩, ⟨.TANK, 12, 1000⟩,
     ⟨.FAST, 8, 2000⟩], reward := 250 },
   { waveNumber := 8, enemies := [⟨.BASIC, 35, 350⟩, ⟨.TANK, 15, 800⟩,
     ⟨.FAST, 12, 1500⟩], reward := 300 },
   { waveNumber := 9, enemies := [⟨.BASIC, 40, 300⟩, ⟨.TANK, 20, 600⟩,
     ⟨.FAST, 15, 1200⟩], reward := 400 },
   { waveNumber := 10, enemies := [⟨.BASIC, 50, 250⟩, ⟨.TANK, 25, 500⟩,
     ⟨.FAST, 20, 1000⟩], reward := 500 }]

/-- `GAME_CONFIG.WAVE_INTERVAL`. -/
def WAVE_INTERVAL : ℚ := 8000

/-- One pending spawn: `{type, spawnTime}`. -/
structure SpawnEntry where
  type : EnemyType
  spawnTime : ℚ
deriving DecidableEq

/-- `this.stats` of the WaveManager constructor. -/
structure WMStats where
  totalEnemiesSpawned : ℕ
  totalWavesCompleted : ℕ
  averageWaveTime : JsNum
  fastestWave : JsNum
  slowestWave : JsNum
deriving DecidableEq

/-- State of the wave scheduler, the fields of `class WaveManager`.  The
live-enemy array the source stashes in `this.enemies` is passed explicitly
to the functions that read it; `Date.now()` is the explicit `now`
argument; `Math.random` of the shuffle is the explicit `rand` argument.
`isPaused` is first assigned by `pause()`/`resume()`/`reset()`; before
that it is `undefined`, which is falsy, so it starts as `false`. -/
structure WaveManager where
  waveData : List WaveDef
  totalWaves : ℕ
  currentWave : ℕ
  waveInProgress : Bool
  waveComplete : Bool
  allWavesComplete : Bool
  enemiesSpawned : ℕ
  enemiesToSpawn : ℕ
  spawnQueue : List SpawnEntry
  lastSpawnTime : ℚ
  nextSpawnTime : ℚ
  waveStartTime : ℚ
  timeBetweenWaves : ℚ
  waveCountdown : ℚ
  isCountingDown : Bool
  isPaused : Bool
  stats : WMStats

/-- The events the WaveManager callbacks deliver to the game. -/
inductive WMEvent where
  | enemySpawn (e : Enemy)
  | waveStart (wave : ℕ)
  | waveCompleted (wave : ℕ) (time : ℚ)
  | allWavesCompleted

/-- The `WaveManager` constructor. -/
def WaveManager.init (waveData : List WaveDef) : WaveManager :=
  { waveData := waveData, totalWaves := waveData.length, currentWave := 0,
    waveInProgress := false, waveComplete := false, allWavesComplete := false,
    enemiesSpawned := 0, enemiesToSpawn := 0, spawnQueue := [],
    lastSpawnTime := 0, nextSpawnTime := 0, waveStartTime := 0,
    timeBetweenWaves := WAVE_INTERVAL, waveCountdown := 0,
    isCountingDown := false, isPaused := false,
    stats := { totalEnemiesSpawned := 0, totalWavesCompleted := 0,
               averageWaveTime := .fin 0, fastestWave := .posInf,
               slowestWave := .fin 0 } }

/-- `WaveManager.getCurrentWaveData`. -/
def WaveManager.getCurrentWaveData (s : WaveManager) : Option WaveDef :=
  if s.currentWave ≥ s.waveData.length then none
  else s.waveData.get? s.currentWave

/-- `WaveManager.shouldShuffleSpawnOrder`: shuffle from the fourth wave
(index ≥ 3) on. -/
def WaveManager.shouldShuffleSpawnOrder (s : WaveManager) : Bool :=
  decide (s.currentWave ≥ 3)

/-- Swap two list slots (the destructuring swap of Fisher–Yates). -/
def swapIdx (l : List SpawnEntry) (i j : ℕ) : List SpawnEntry :=
  match l.get? i, l.get? j with
  | some a, some b => (l.set i b).set j a
  | _, _ => l

/-- The Fisher–Yates loop, `i` running down to 1; `rand i` stands for
`Math.floor(Math.random() * (i + 1))`, which always lies in `[0, i]`, so
the model clamps it with `min`. -/
def fisherYates (rand : ℕ → ℕ) : ℕ → List SpawnEntry → List SpawnEntry
  | 0, l => l
  | i + 1, l => fisherYates rand i (swapIdx l (i + 1) (min (rand (i + 1)) (i + 1)))

/-- `WaveManager.shuffleSpawnQueue`: Fisher–Yates shuffle, then every
entry''s spawn time is overwritten with `index * 800`. -/
def shuffleSpawnQueue (rand : ℕ → ℕ) (queue : List SpawnEntry) :
    List SpawnEntry :=
  let shuffled := fisherYates rand (queue.length - 1) queue
  shuffled.enum.map (fun p => { p.2 with spawnTime := (p.1 : ℚ) * 800 })

/-- The nested loops of `prepareSpawnQueue`: each group contributes `count`
entries whose `spawnTime` is the RUNNING spawn index (`n` entries already
queued) times the current group''s own interval. -/
def expandGroups : List EnemyGroup → ℕ → List SpawnEntry
  | [], _ => []
  | g :: rest, n =>
    (List.range g.count).map
      (fun i => { type := g.type, spawnTime := ((n + i : ℕ) : ℚ) * g.spawnInterval })
      ++ expandGroups rest (n + g.count)

/-- `WaveManager.prepareSpawnQueue(waveData)`. -/
def WaveManager.prepareSpawnQueue (s : WaveManager) (rand : ℕ → ℕ)
    (waveData : WaveDef) : WaveManager :=
  let queue := expandGroups waveData.enemies 0
  let total := (waveData.enemies.map (fun g => g.count)).sum
  let s1 := { s with spawnQueue := queue, enemiesToSpawn := total }
  if s1.shouldShuffleSpawnOrder then
    { s1 with spawnQueue := shuffleSpawnQueue rand s1.spawnQueue }
  else s1

/-- `WaveManager.getNextSpawnDelay`: difference between consecutive spawn
offsets, floored at 500 ms; `spawnQueue[enemiesSpawned - 1]` is `undefined`
for the first spawn (JavaScript index `-1`). -/
def WaveManager.getNextSpawnDelay (s : WaveManager) : ℚ :=
  if s.enemiesSpawned ≥ s.spawnQueue.length then 0
  else
    let nextEnemy := s.spawnQueue.get? s.enemiesSpawned
    let currentEnemy :=
      if s.enemiesSpawned = 0 then none
      else s.spawnQueue.get? (s.enemiesSpawned - 1)
    match nextEnemy, currentEnemy with
    | some ne, none => ne.spawnTime
    | some ne, some ce => max 500 (ne.spawnTime - ce.spawnTime)
    | none, _ => 0

/-- `WaveManager.initializeWave`. -/
def WaveManager.initializeWave (s : WaveManager) (now : ℚ) (rand : ℕ → ℕ) :
    WaveManager :=
  match s.getCurrentWaveData with
  | none => s
  | some waveData =>
    let s1 := { s with waveInProgress := true, waveComplete := false, waveStartTime := now }
    let s2 := s1.prepareSpawnQueue rand waveData
    let s3 := { s2 with enemiesSpawned := 0, lastSpawnTime := now }
    { s3 with nextSpawnTime := s3.lastSpawnTime + s3.getNextSpawnDelay }

/-- `WaveManager.completeAllWaves` (with its `onAllWavesComplete`
callback as an event). -/
def WaveManager.completeAllWaves (s : WaveManager) :
    WaveManager × List WMEvent :=
  if s.allWavesComplete then (s, [])
  else ({ s with allWavesComplete := true, isCountingDown := false },
        [.allWavesCompleted])

/-- `WaveManager.startWaveCountdown`. -/
def WaveManager.startWaveCountdown (s : WaveManager) : WaveManager :=
  { s with isCountingDown := true, waveCountdown := s.timeBetweenWaves }

/-- `WaveManager.updateWaveStats(waveTime)`: note that it runs BEFORE
`stats.totalWavesCompleted` is incremented, so the running-average divisor
is the count of waves completed before this one. -/
def updateWaveStats (waveTime : ℚ) (st : WMStats) : WMStats :=
  let totalTime := jsAdd
    (jsMul st.averageWaveTime (.fin ((st.totalWavesCompleted : ℚ) - 1)))
    (.fin waveTime)
  let avg := jsDiv totalTime (.fin (st.totalWavesCompleted : ℚ))
  let st1 := { st with averageWaveTime := avg }
  let st2 := if jsLt (.fin waveTime) st1.fastestWave then
    { st1 with fastestWave := .fin waveTime } else st1
  if jsLt st2.slowestWave (.fin waveTime) then
    { st2 with slowestWave := .fin waveTime } else st2

/-- `WaveManager.completeCurrentWave` (statistics update, wave index
advance, countdown start, callback as an event). -/
def WaveManager.completeCurrentWave (s : WaveManager) (now : ℚ) :
    WaveManager × List WMEvent :=
  if s.waveComplete then (s, [])
  else
    let s1 := { s with waveComplete := true, waveInProgress := false }
    let waveTime := now - s1.waveStartTime
    let s2 := { s1 with stats := updateWaveStats waveTime s1.stats }
    let s3 := { s2 with currentWave := s2.currentWave + 1 }
    let s4 := { s3 with stats := { s3.stats with
      totalWavesCompleted := s3.stats.totalWavesCompleted + 1 } }
    let ev := [WMEvent.waveCompleted s4.currentWave waveTime]
    if s4.currentWave < s4.totalWaves then (s4.startWaveCountdown, ev)
    else (s4, ev)

/-- `WaveManager.checkWaveCompletion`, reading the live enemy list the
game passed into `update`. -/
def WaveManager.checkWaveCompletion (s : WaveManager) (now : ℚ)
    (enemies : List Enemy) : WaveManager × List WMEvent :=
  if s.waveComplete then (s, [])
  else
    let allSpawned := decide (s.enemiesSpawned ≥ s.enemiesToSpawn)
    let noEnemiesAlive :=
      decide (enemies.length = 0) || enemies.all (fun e => !e.isAlive)
    if allSpawned && noEnemiesAlive then s.completeCurrentWave now
    else (s, [])

/-- `WaveManager.spawnNextEnemy` (enemy construction and the
`onEnemySpawn` callback as an event). -/
noncomputable def WaveManager.spawnNextEnemy (s : WaveManager) (now : ℚ) :
    WaveManager × List WMEvent :=
  if s.enemiesSpawned ≥ s.spawnQueue.length then (s, [])
  else
    match s.spawnQueue.get? s.enemiesSpawned with
    | none => (s, [])
    | some entry =>
      let enemy := Enemy.init entry.type
      let st := { s.stats with totalEnemiesSpawned := s.stats.totalEnemiesSpawned + 1 }
      let s1 := { s with enemiesSpawned := s.enemiesSpawned + 1, stats := st }
      let s2 := { s1 with lastSpawnTime := now }
      let s3 := { s2 with nextSpawnTime := s2.lastSpawnTime + s2.getNextSpawnDelay }
      (s3, [.enemySpawn enemy])

/-- `WaveManager.processEnemySpawning`. -/
noncomputable def WaveManager.processEnemySpawning (s : WaveManager)
    (now : ℚ) : WaveManager × List WMEvent :=
  if s.enemiesSpawned ≥ s.enemiesToSpawn then (s, [])
  else if now ≥ s.nextSpawnTime then s.spawnNextEnemy now
  else (s, [])

/-- `WaveManager.startNextWave(manual)`: rejected while a wave is in
progress or after completion; completes all waves when no wave is left;
cancels a running countdown only on a MANUAL start; then initializes the
wave.  Returns the started flag and the emitted events. -/
def WaveManager.startNextWave (s : WaveManager) (manual : Bool) (now : ℚ)
    (rand : ℕ → ℕ) : WaveManager × Bool × List WMEvent :=
  if s.waveInProgress || s.allWavesComplete then (s, false, [])
  else if s.currentWave ≥ s.totalWaves then
    let r := s.completeAllWaves
    (r.1, false, r.2)
  else
    let s1 := if manual && s.isCountingDown then
      { s with isCountingDown := false, waveCountdown := 0 } else s
    let s2 := s1.initializeWave now rand
    (s2, true, [.waveStart (s2.currentWave + 1)])

/-- `WaveManager.updateCountdown(deltaTime)`: run the countdown down and
auto-start the next wave (non-manual) when it expires. -/
def WaveManager.updateCountdown (s : WaveManager) (now deltaTime : ℚ)
    (rand : ℕ → ℕ) : WaveManager × List WMEvent :=
  if !s.isCountingDown then (s, [])
  else
    let s1 := { s with waveCountdown := s.waveCountdown - deltaTime }
    if s1.waveCountdown ≤ 0 then
      let s2 := { s1 with isCountingDown := false, waveCountdown := 0 }
      let r := s2.startNextWave false now rand
      (r.1, r.2.2)
    else (s1, [])

/-- `WaveManager.checkAllWavesComplete`. -/
def WaveManager.checkAllWavesComplete (s : WaveManager) :
    WaveManager × List WMEvent :=
  if s.allWavesComplete then (s, [])
  else if s.currentWave ≥ s.totalWaves && !s.waveInProgress then
    s.completeAllWaves
  else (s, [])

/-- `WaveManager.update(deltaTime, currentEnemies)`: countdown, then spawn
processing and completion check while a wave runs, then the all-complete
check. -/
noncomputable def WaveManager.update (s : WaveManager) (now deltaTime : ℚ)
    (enemies : List Enemy) (rand : ℕ → ℕ) : WaveManager × List WMEvent :=
  let r1 := if s.isCountingDown then s.updateCountdown now deltaTime rand
    else (s, [])
  let r2 := if r1.1.waveInProgress then
      let ra := r1.1.processEnemySpawning now
      let rb := ra.1.checkWaveCompletion now enemies
      (rb.1, ra.2 ++ rb.2)
    else (r1.1, [])
  let r3 := r2.1.checkAllWavesComplete
  (r3.1, r1.2 ++ r2.2 ++ r3.2)

/-- `WaveManager.pause`: sets `isPaused` and nothing else. -/
def WaveManager.pause (s : WaveManager) : WaveManager :=
  { s with isPaused := true }

/-- `WaveManager.resume`. -/
def WaveManager.resume (s : WaveManager) (now : ℚ) : WaveManager :=
  let s1 := { s with isPaused := false }
  if s1.waveInProgress then
    { s1 with nextSpawnTime := now + s1.getNextSpawnDelay }
  else s1



/-! ### Wave statistics (C2) -/

/-- C2 (recording of timing statistics).  `updateWaveStats` runs before
`stats.totalWavesCompleted` is incremented, so completing the FIRST wave
divides by zero: from a fresh scheduler, a first wave completed after
1000 ms leaves `averageWaveTime = Infinity` (JavaScript `1000/0`), not the
arithmetic mean 1000; the minimum/maximum records are updated correctly. -/
theorem waveStats_average_divides_by_zero :
    ((({ WaveManager.init WAVE_DATA with waveInProgress := true } :
        WaveManager).completeCurrentWave 1000).1.stats.averageWaveTime =
      JsNum.posInf)
  ∧ ((({ WaveManager.init WAVE_DATA with waveInProgress := true } :
        WaveManager).completeCurrentWave 1000).1.stats.fastestWave =
      JsNum.fin 1000)
  ∧ ((({ WaveManager.init WAVE_DATA with waveInProgress := true } :
        WaveManager).completeCurrentWave 1000).1.stats.slowestWave =
      JsNum.fin 1000)
  ∧ ((({ WaveManager.init WAVE_DATA with waveInProgress := true } :
        WaveManager).completeCurrentWave 1000).1.stats.totalWavesCompleted = 1)
  ∧ JsNum.posInf ≠ JsNum.fin 1000 := by
  have hstats : updateWaveStats 1000
      { totalEnemiesSpawned := 0, totalWavesCompleted := 0,
        averageWaveTime := .fin 0, fastestWave := .posInf,
        slowestWave := .fin 0 } =
      { totalEnemiesSpawned := 0, totalWavesCompleted := 0,
        averageWaveTime := .posInf, fastestWave := .fin 1000,
        slowestWave := .fin 1000 } := by
    unfold updateWaveStats
    norm_num [jsAdd, jsMul, jsDiv, jsLt]
  have hmain : (({ WaveManager.init WAVE_DATA with waveInProgress := true} :
      WaveManager).completeCurrentWave 1000).1.stats =
      { totalEnemiesSpawned := 0, totalWavesCompleted := 1,
        averageWaveTime := .posInf, fastestWave := .fin 1000,
        slowestWave := .fin 1000 } := by
    unfold WaveManager.completeCurrentWave
    rw [if_neg (by decide)]
    dsimp only
    norm_num [WaveManager.init, WAVE_DATA, WAVE_INTERVAL, hstats,
      WaveManager.startWaveCountdown]
  refine ⟨?_, ?_, ?_, ?_, by decide⟩ <;> rw [hmain]

/-! ### Spawn-queue expansion and wave completion (C8) -/

theorem completeCurrentWave_sets {s : WaveManager}
    (h : s.waveComplete = false) (now : ℚ) :
    (s.completeCurrentWave now).1.waveComplete = true := by
  unfold WaveManager.completeCurrentWave WaveManager.startWaveCountdown
  rw [if_neg (by simp [h])]
  dsimp only
  split_ifs <;> rfl

/-- C8.  Expanding the wave whose groups are
`[(BASIC,10,800ms),(TANK,3,2000ms)]` (wave 3, so no shuffle) yields a spawn
queue of exactly 13 entries and an expected-spawn count of 13; and for any
scheduler state expecting 13 spawns whose wave is not yet complete, the
completion check fires exactly when at least 13 units have been spawned and
no unit in the live set is alive. -/
theorem wave3_queue_13_and_completion :
    (∀ rand : ℕ → ℕ,
      ((({ WaveManager.init WAVE_DATA with currentWave := 2 } :
          WaveManager).prepareSpawnQueue rand
          { waveNumber := 3, enemies := [⟨.BASIC, 10, 800⟩, ⟨.TANK, 3, 2000⟩],
            reward := 100 }).spawnQueue.length = 13
      ∧ (({ WaveManager.init WAVE_DATA with currentWave := 2 } :
          WaveManager).prepareSpawnQueue rand
          { waveNumber := 3, enemies := [⟨.BASIC, 10, 800⟩, ⟨.TANK, 3, 2000⟩],
            reward := 100 }).enemiesToSpawn = 13))
  ∧ (∀ (s : WaveManager) (now : ℚ) (enemies : List Enemy),
      s.waveComplete = false → s.enemiesToSpawn = 13 →
      ((s.checkWaveCompletion now enemies).1.waveComplete = true ↔
        (13 ≤ s.enemiesSpawned ∧
          (enemies.length = 0 ∨ ∀ e ∈ enemies, e.isAlive = false)))) := by
  constructor
  · intro rand
    constructor
    · rw [WaveManager.prepareSpawnQueue]
      rw [if_neg (by decide)]
      rfl
    · rw [WaveManager.prepareSpawnQueue]
      rw [if_neg (by decide)]
      rfl
  · intro s now enemies hw hts
    unfold WaveManager.checkWaveCompletion
    rw [if_neg (by simp [hw])]
    dsimp only
    by_cases hcond : (decide (s.enemiesSpawned ≥ s.enemiesToSpawn) &&
        (decide (enemies.length = 0) || enemies.all fun e => !e.isAlive)) = true
    · rw [if_pos hcond]
      simp only [Bool.and_eq_true, Bool.or_eq_true, decide_eq_true_eq,
        List.all_eq_true, Bool.not_eq_true'] at hcond
      rw [hts] at hcond
      constructor
      · intro _
        exact ⟨hcond.1, hcond.2.elim Or.inl (fun h => Or.inr fun e he => h e he)⟩
      · intro _
        exact completeCurrentWave_sets hw now
    · rw [if_neg hcond]
      simp only [Bool.and_eq_true, Bool.or_eq_true, decide_eq_true_eq,
        List.all_eq_true, Bool.not_eq_true'] at hcond
      rw [hts] at hcond
      constructor
      · intro habs
        rw [hw] at habs
        exact absurd habs (by simp)
      · intro hc
        exact absurd ⟨hc.1, hc.2.elim Or.inl (fun h => Or.inr fun e he => h e he)⟩ hcond
    
/-- Concrete instance for C8: the 13-entry queue with a fixed random
source, and completion firing on a state with all 13 spawned and an empty
live set. -/
theorem wave3_queue_13_and_completion_witness :
    ((({ WaveManager.init WAVE_DATA with currentWave := 2 } :
        WaveManager).prepareSpawnQueue (fun _ => 0)
        { waveNumber := 3, enemies := [⟨.BASIC, 10, 800⟩, ⟨.TANK, 3, 2000⟩],
          reward := 100 }).spawnQueue.length = 13)
  ∧ ((({ WaveManager.init WAVE_DATA with enemiesToSpawn := 13, enemiesSpawned := 13 } : WaveManager).checkWaveCompletion 0
        []).1.waveComplete = true) := by
  refine ⟨(wave3_queue_13_and_completion.1 (fun _ => 0)).1, ?_⟩
  exact (wave3_queue_13_and_completion.2 _ 0 [] rfl rfl).mpr
    ⟨by norm_num, Or.inl rfl⟩



/-! ### Wave start rejection and countdown cancellation (C9) -/

theorem prepareSpawnQueue_countdown (s : WaveManager) (rand : ℕ → ℕ)
    (wd : WaveDef) :
    (s.prepareSpawnQueue rand wd).isCountingDown = s.isCountingDown ∧
    (s.prepareSpawnQueue rand wd).waveCountdown = s.waveCountdown := by
  unfold WaveManager.prepareSpawnQueue
  dsimp only
  split_ifs <;> exact ⟨rfl, rfl⟩

theorem initializeWave_countdown (s : WaveManager) (now : ℚ) (rand : ℕ → ℕ) :
    (s.initializeWave now rand).isCountingDown = s.isCountingDown ∧
    (s.initializeWave now rand).waveCountdown = s.waveCountdown := by
  unfold WaveManager.initializeWave
  rcases s.getCurrentWaveData with _ | wd
  · exact ⟨rfl, rfl⟩
  · dsimp only
    constructor
    · rw [(prepareSpawnQueue_countdown _ rand wd).1]
    · rw [(prepareSpawnQueue_countdown _ rand wd).2]

/-- C9 (amended).  `startNextWave` returns false and leaves the state
unchanged whenever a wave is in progress or all waves are complete.  When it
is startable, a MANUAL invocation during an active countdown cancels the
countdown (flag cleared and timer zeroed) before starting the wave, but an
AUTOMATIC invocation leaves the countdown fields exactly as they were — the
cancellation is gated on `manual`, not on every invocation. -/
theorem startNextWave_reject_manual_cancel (s : WaveManager) (m : Bool)
    (now : ℚ) (rand : ℕ → ℕ) :
    (s.waveInProgress = true ∨ s.allWavesComplete = true →
      s.startNextWave m now rand = (s, false, []))
  ∧ (s.waveInProgress = false → s.allWavesComplete = false →
      s.currentWave < s.totalWaves →
      ((s.startNextWave true now rand).2.1 = true
       ∧ (s.isCountingDown = true →
           (s.startNextWave true now rand).1.isCountingDown = false
           ∧ (s.startNextWave true now rand).1.waveCountdown = 0)))
  ∧ (s.waveInProgress = false → s.allWavesComplete = false →
      s.currentWave < s.totalWaves →
      ((s.startNextWave false now rand).2.1 = true
       ∧ (s.startNextWave false now rand).1.isCountingDown = s.isCountingDown
       ∧ (s.startNextWave false now rand).1.waveCountdown = s.waveCountdown)) := by
  refine ⟨fun h => ?_, fun hw ha hc => ?_, fun hw ha hc => ?_⟩
  · unfold WaveManager.startNextWave
    rcases h with h | h <;> rw [if_pos (by simp [h])]
  · unfold WaveManager.startNextWave
    rw [if_neg (by simp [hw, ha]), if_neg (by simpa using not_le.mpr hc)]
    dsimp only
    refine ⟨rfl, fun hcd => ?_⟩
    rw [if_pos (by simp [hcd])]
    constructor
    · rw [(initializeWave_countdown _ now rand).1]
    · rw [(initializeWave_countdown _ now rand).2]
  · unfold WaveManager.startNextWave
    rw [if_neg (by simp [hw, ha]), if_neg (by simpa using not_le.mpr hc)]
    dsimp only
    rw [if_neg (by simp)]
    exact ⟨rfl, (initializeWave_countdown _ now rand).1,
      (initializeWave_countdown _ now rand).2⟩

/-- Counterexample to C9 as stated: from a fresh scheduler with an active
8-second countdown (5000 ms remaining), an AUTOMATIC `startNextWave(false)`
call starts the wave (returns true) yet leaves `isCountingDown = true` and
the 5000 ms timer untouched: the countdown is not cancelled on every
invocation. -/
theorem startNextWave_auto_no_cancel_counterexample :
    ((({ WaveManager.init WAVE_DATA with isCountingDown := true, waveCountdown := 5000 } :
        WaveManager).startNextWave false 0 (fun _ => 0)).2.1 = true)
  ∧ ((({ WaveManager.init WAVE_DATA with isCountingDown := true, waveCountdown := 5000 } :
        WaveManager).startNextWave false 0 (fun _ => 0)).1.isCountingDown = true)
  ∧ ((({ WaveManager.init WAVE_DATA with isCountingDown := true, waveCountdown := 5000 } :
        WaveManager).startNextWave false 0 (fun _ => 0)).1.waveCountdown = 5000) := by
  refine ⟨?_, ?_, ?_⟩ <;>
    · unfold WaveManager.startNextWave WaveManager.initializeWave
        WaveManager.getCurrentWaveData WaveManager.prepareSpawnQueue
        WaveManager.shouldShuffleSpawnOrder
      norm_num [WaveManager.init, WAVE_DATA]

/-- Concrete instance for C9 (amended): rejection while a wave is in
progress, and manual cancellation of an active countdown. -/
theorem startNextWave_reject_manual_cancel_witness :
    ((({ WaveManager.init WAVE_DATA with waveInProgress := true } :
        WaveManager).startNextWave true 0 (fun _ => 0)) =
      (({ WaveManager.init WAVE_DATA with waveInProgress := true } : WaveManager),
        false, []))
  ∧ ((({ WaveManager.init WAVE_DATA with isCountingDown := true, waveCountdown := 5000 } :
        WaveManager).startNextWave true 0 (fun _ => 0)).1.isCountingDown = false)
  ∧ ((({ WaveManager.init WAVE_DATA with isCountingDown := true, waveCountdown := 5000 } :
        WaveManager).startNextWave true 0 (fun _ => 0)).1.waveCountdown = 0) := by
  refine ⟨(startNextWave_reject_manual_cancel _ true 0 (fun _ => 0)).1
    (Or.inl rfl), ?_, ?_⟩
  · exact (((startNextWave_reject_manual_cancel
      ({ WaveManager.init WAVE_DATA with isCountingDown := true, waveCountdown := 5000 } :
        WaveManager) true 0 (fun _ => 0)).2.1 rfl rfl (by decide)).2 rfl).1
  · exact (((startNextWave_reject_manual_cancel
      ({ WaveManager.init WAVE_DATA with isCountingDown := true, waveCountdown := 5000 } :
        WaveManager) true 0 (fun _ => 0)).2.1 rfl rfl (by decide)).2 rfl).2



/-! ### Pause has no effect on update (C10) -/

theorem getCurrentWaveData_pause (wdat : List WaveDef) (tw cw : ℕ) (wip wcm awc : Bool)
    (esp ets : ℕ) (sq : List SpawnEntry) (lst nst wst tbw wcd : ℚ)
    (icd b : Bool) (st : WMStats) :
    WaveManager.getCurrentWaveData (⟨wdat, tw, cw, wip, wcm, awc, esp, ets, sq, lst, nst, wst, tbw, wcd, icd, b, st⟩ : WaveManager) =
      WaveManager.getCurrentWaveData (⟨wdat, tw, cw, wip, wcm, awc, esp, ets, sq, lst, nst, wst, tbw, wcd, icd, false, st⟩ : WaveManager) := rfl

theorem prepareSpawnQueue_pause (wdat : List WaveDef) (tw cw : ℕ) (wip wcm awc : Bool)
    (esp ets : ℕ) (sq : List SpawnEntry) (lst nst wst tbw wcd : ℚ)
    (icd b : Bool) (st : WMStats) (rand : ℕ → ℕ) (w : WaveDef) :
    WaveManager.prepareSpawnQueue (⟨wdat, tw, cw, wip, wcm, awc, esp, ets, sq, lst, nst, wst, tbw, wcd, icd, b, st⟩ : WaveManager) rand w =
      { WaveManager.prepareSpawnQueue (⟨wdat, tw, cw, wip, wcm, awc, esp, ets, sq, lst, nst, wst, tbw, wcd, icd, false, st⟩ : WaveManager) rand w with isPaused := b } := by
  unfold WaveManager.prepareSpawnQueue WaveManager.shouldShuffleSpawnOrder
  dsimp only
  split_ifs <;> rfl

theorem initializeWave_pause (wdat : List WaveDef) (tw cw : ℕ) (wip wcm awc : Bool)
    (esp ets : ℕ) (sq : List SpawnEntry) (lst nst wst tbw wcd : ℚ)
    (icd b : Bool) (st : WMStats) (now : ℚ) (rand : ℕ → ℕ) :
    WaveManager.initializeWave (⟨wdat, tw, cw, wip, wcm, awc, esp, ets, sq, lst, nst, wst, tbw, wcd, icd, b, st⟩ : WaveManager) now rand =
      { WaveManager.initializeWave (⟨wdat, tw, cw, wip, wcm, awc, esp, ets, sq, lst, nst, wst, tbw, wcd, icd, false, st⟩ : WaveManager) now rand with isPaused := b } := by
  unfold WaveManager.initializeWave
  rw [getCurrentWaveData_pause]
  rcases WaveManager.getCurrentWaveData (⟨wdat, tw, cw, wip, wcm, awc, esp, ets, sq, lst, nst, wst, tbw, wcd, icd, false, st⟩ : WaveManager) with _ | wdef
  · rfl
  · dsimp only
    rw [prepareSpawnQueue_pause]
    rfl

theorem completeAllWaves_pause (wdat : List WaveDef) (tw cw : ℕ) (wip wcm awc : Bool)
    (esp ets : ℕ) (sq : List SpawnEntry) (lst nst wst tbw wcd : ℚ)
    (icd b : Bool) (st : WMStats) :
    WaveManager.completeAllWaves (⟨wdat, tw, cw, wip, wcm, awc, esp, ets, sq, lst, nst, wst, tbw, wcd, icd, b, st⟩ : WaveManager) =
      ({ (WaveManager.completeAllWaves (⟨wdat, tw, cw, wip, wcm, awc, esp, ets, sq, lst, nst, wst, tbw, wcd, icd, false, st⟩ : WaveManager)).1 with isPaused := b },
       (WaveManager.completeAllWaves (⟨wdat, tw, cw, wip, wcm, awc, esp, ets, sq, lst, nst, wst, tbw, wcd, icd, false, st⟩ : WaveManager)).2) := by
  unfold WaveManager.completeAllWaves
  dsimp only
  split_ifs <;> rfl

theorem completeCurrentWave_pause (wdat : List WaveDef) (tw cw : ℕ) (wip wcm awc : Bool)
    (esp ets : ℕ) (sq : List SpawnEntry) (lst nst wst tbw wcd : ℚ)
    (icd b : Bool) (st : WMStats) (now : ℚ) :
    WaveManager.completeCurrentWave (⟨wdat, tw, cw, wip, wcm, awc, esp, ets, sq, lst, nst, wst, tbw, wcd, icd, b, st⟩ : WaveManager) now =
      ({ (WaveManager.completeCurrentWave (⟨wdat, tw, cw, wip, wcm, awc, esp, ets, sq, lst, nst, wst, tbw, wcd, icd, false, st⟩ : WaveManager) now).1 with isPaused := b },
       (WaveManager.completeCurrentWave (⟨wdat, tw, cw, wip, wcm, awc, esp, ets, sq, lst, nst, wst, tbw, wcd, icd, false, st⟩ : WaveManager) now).2) := by
  unfold WaveManager.completeCurrentWave WaveManager.startWaveCountdown
  dsimp only
  split_ifs <;> rfl

theorem checkWaveCompletion_pause (wdat : List WaveDef) (tw cw : ℕ) (wip wcm awc : Bool)
    (esp ets : ℕ) (sq : List SpawnEntry) (lst nst wst tbw wcd : ℚ)
    (icd b : Bool) (st : WMStats) (now : ℚ) (enemies : List Enemy) :
    WaveManager.checkWaveCompletion (⟨wdat, tw, cw, wip, wcm, awc, esp, ets, sq, lst, nst, wst, tbw, wcd, icd, b, st⟩ : WaveManager) now enemies =
      ({ (WaveManager.checkWaveCompletion (⟨wdat, tw, cw, wip, wcm, awc, esp, ets, sq, lst, nst, wst, tbw, wcd, icd, false, st⟩ : WaveManager) now enemies).1 with isPaused := b },
       (WaveManager.checkWaveCompletion (⟨wdat, tw, cw, wip, wcm, awc, esp, ets, sq, lst, nst, wst, tbw, wcd, icd, false, st⟩ : WaveManager) now enemies).2) := by
  unfold WaveManager.checkWaveCompletion
  dsimp only
  split_ifs <;> first
    | rfl
    | (rw [completeCurrentWave_pause] <;> rfl)

theorem spawnNextEnemy_pause (wdat : List WaveDef) (tw cw : ℕ) (wip wcm awc : Bool)
    (esp ets : ℕ) (sq : List SpawnEntry) (lst nst wst tbw wcd : ℚ)
    (icd b : Bool) (st : WMStats) (now : ℚ) :
    WaveManager.spawnNextEnemy (⟨wdat, tw, cw, wip, wcm, awc, esp, ets, sq, lst, nst, wst, tbw, wcd, icd, b, st⟩ : WaveManager) now =
      ({ (WaveManager.spawnNextEnemy (⟨wdat, tw, cw, wip, wcm, awc, esp, ets, sq, lst, nst, wst, tbw, wcd, icd, false, st⟩ : WaveManager) now).1 with isPaused := b },
       (WaveManager.spawnNextEnemy (⟨wdat, tw, cw, wip, wcm, awc, esp, ets, sq, lst, nst, wst, tbw, wcd, icd, false, st⟩ : WaveManager) now).2) := by
  unfold WaveManager.spawnNextEnemy
  dsimp only
  split_ifs
  · rfl
  · rcases sq.get? esp with _ | entry <;> rfl

theorem processEnemySpawning_pause (wdat : List WaveDef) (tw cw : ℕ) (wip wcm awc : Bool)
    (esp ets : ℕ) (sq : List SpawnEntry) (lst nst wst tbw wcd : ℚ)
    (icd b : Bool) (st : WMStats) (now : ℚ) :
    WaveManager.processEnemySpawning (⟨wdat, tw, cw, wip, wcm, awc, esp, ets, sq, lst, nst, wst, tbw, wcd, icd, b, st⟩ : WaveManager) now =
      ({ (WaveManager.processEnemySpawning (⟨wdat, tw, cw, wip, wcm, awc, esp, ets, sq, lst, nst, wst, tbw, wcd, icd, false, st⟩ : WaveManager) now).1 with isPaused := b },
       (WaveManager.processEnemySpawning (⟨wdat, tw, cw, wip, wcm, awc, esp, ets, sq, lst, nst, wst, tbw, wcd, icd, false, st⟩ : WaveManager) now).2) := by
  unfold WaveManager.processEnemySpawning
  dsimp only
  split_ifs <;> first
    | rfl
    | (rw [spawnNextEnemy_pause] <;> rfl)

theorem startNextWave_pause (wdat : List WaveDef) (tw cw : ℕ) (wip wcm awc : Bool)
    (esp ets : ℕ) (sq : List SpawnEntry) (lst nst wst tbw wcd : ℚ)
    (icd b : Bool) (st : WMStats) (manual : Bool) (now : ℚ) (rand : ℕ → ℕ) :
    WaveManager.startNextWave (⟨wdat, tw, cw, wip, wcm, awc, esp, ets, sq, lst, nst, wst, tbw, wcd, icd, b, st⟩ : WaveManager) manual now rand =
      ({ (WaveManager.startNextWave (⟨wdat, tw, cw, wip, wcm, awc, esp, ets, sq, lst, nst, wst, tbw, wcd, icd, false, st⟩ : WaveManager) manual now rand).1 with isPaused := b },
       (WaveManager.startNextWave (⟨wdat, tw, cw, wip, wcm, awc, esp, ets, sq, lst, nst, wst, tbw, wcd, icd, false, st⟩ : WaveManager) manual now rand).2) := by
  unfold WaveManager.startNextWave
  dsimp only
  split_ifs <;> first
    | rfl
    | (rw [completeAllWaves_pause] <;> rfl)
    | (rw [initializeWave_pause] <;> rfl)

theorem updateCountdown_pause (wdat : List WaveDef) (tw cw : ℕ) (wip wcm awc : Bool)
    (esp ets : ℕ) (sq : List SpawnEntry) (lst nst wst tbw wcd : ℚ)
    (icd b : Bool) (st : WMStats) (now deltaTime : ℚ) (rand : ℕ → ℕ) :
    WaveManager.updateCountdown (⟨wdat, tw, cw, wip, wcm, awc, esp, ets, sq, lst, nst, wst, tbw, wcd, icd, b, st⟩ : WaveManager) now deltaTime rand =
      ({ (WaveManager.updateCountdown (⟨wdat, tw, cw, wip, wcm, awc, esp, ets, sq, lst, nst, wst, tbw, wcd, icd, false, st⟩ : WaveManager) now deltaTime rand).1 with isPaused := b },
       (WaveManager.updateCountdown (⟨wdat, tw, cw, wip, wcm, awc, esp, ets, sq, lst, nst, wst, tbw, wcd, icd, false, st⟩ : WaveManager) now deltaTime rand).2) := by
  unfold WaveManager.updateCountdown
  dsimp only
  split_ifs <;> first
    | rfl
    | (rw [startNextWave_pause] <;> rfl)

theorem checkAllWavesComplete_pause (wdat : List WaveDef) (tw cw : ℕ) (wip wcm awc : Bool)
    (esp ets : ℕ) (sq : List SpawnEntry) (lst nst wst tbw wcd : ℚ)
    (icd b : Bool) (st : WMStats) :
    WaveManager.checkAllWavesComplete (⟨wdat, tw, cw, wip, wcm, awc, esp, ets, sq, lst, nst, wst, tbw, wcd, icd, b, st⟩ : WaveManager) =
      ({ (WaveManager.checkAllWavesComplete (⟨wdat, tw, cw, wip, wcm, awc, esp, ets, sq, lst, nst, wst, tbw, wcd, icd, false, st⟩ : WaveManager)).1 with isPaused := b },
       (WaveManager.checkAllWavesComplete (⟨wdat, tw, cw, wip, wcm, awc, esp, ets, sq, lst, nst, wst, tbw, wcd, icd, false, st⟩ : WaveManager)).2) := by
  unfold WaveManager.checkAllWavesComplete
  dsimp only
  split_ifs <;> first
    | rfl
    | (rw [completeAllWaves_pause] <;> rfl)

/-- C10.  `pause()` only sets the `isPaused` flag, and `update` never reads
it: updating a paused scheduler performs exactly the same spawn processing,
countdown handling and state transitions, and emits exactly the same
events, as updating the unpaused one — the resulting states agree on every
field except the flag `pause` set. -/
theorem pause_no_effect_on_update (s : WaveManager) (now deltaTime : ℚ)
    (enemies : List Enemy) (rand : ℕ → ℕ) :
    (s.pause).update now deltaTime enemies rand =
      ({ (s.update now deltaTime enemies rand).1 with isPaused := true },
       (s.update now deltaTime enemies rand).2) := by
  cases s with
  | mk wdat tw cw wip wcm awc esp ets sq lst nst wst tbw wcd icd ip st =>
  unfold WaveManager.pause WaveManager.update
  dsimp only
  cases icd
  all_goals simp only [Bool.false_eq_true, eq_self_iff_true, if_false, if_true]
  all_goals try (conv_lhs => rw [updateCountdown_pause])
  all_goals try (conv_rhs => rw [updateCountdown_pause])
  all_goals try dsimp only
  all_goals split_ifs
  all_goals try (conv_lhs => rw [processEnemySpawning_pause])
  all_goals try (conv_rhs => rw [processEnemySpawning_pause])
  all_goals try dsimp only
  all_goals try (conv_lhs => rw [checkWaveCompletion_pause])
  all_goals try (conv_rhs => rw [checkWaveCompletion_pause])
  all_goals try dsimp only
  all_goals try (conv_lhs => rw [checkAllWavesComplete_pause])
  all_goals try (conv_rhs => rw [checkAllWavesComplete_pause])
  all_goals rfl

end TD
